import Mathlib

/-! # AudioRecorder.js: recording session state machine

A shallow embedding of `wwwroot/scripts/AudioRecorder.js`.  The module-level variables
of the script become the fields of `State`; the browser resources the script drives
(pending timers, scheduled animation-frame callbacks, live stream tracks, queued
recorder events) are explicit fields as well, and every call the script makes on the
platform is appended to `State.log`.  JavaScript numbers are modelled by exact
rationals.
-/

namespace AudioRecorder

/-- The `state` attribute of a `MediaRecorder`. -/
inductive RecorderState where
  | inactive
  | recording
  | paused
  deriving DecidableEq, Repr

/-- Callbacks handed to `requestAnimationFrame`.  Every call of `detectSilence`
creates its own `checkSilence` closure owning a buffer of `bufLen` bytes. -/
inductive Callback where
  | checkSilence (bufLen : Nat)
  | drawWave
  deriving DecidableEq, Repr

/-- Calls on the 2D canvas context. -/
inductive CanvasOp where
  | fillRect (x y w h : ℚ)
  | beginPath
  | moveTo (x y : ℚ)
  | lineTo (x y : ℚ)
  | stroke
  | clearRect (x y w h : ℚ)
  deriving DecidableEq

/-- Observable actions of the script, in the order in which they are performed. -/
inductive Effect where
  | setIsRecording (b : Bool)
  | recorderStart
  | recorderStop
  | tracksStop (stream : Nat)
  | clearTimeout (handle : Option Nat)
  | setTimeout (id delay : Nat)
  | contextClose
  | classAdd
  | classRemove
  | requestFrame (cb : Callback)
  | canvas (op : CanvasOp)
  | audioPlay
  | invokeOnAudioUrl
  deriving DecidableEq

/-- Module variables of the script together with the platform resources it drives. -/
structure State where
  /-- Stream id stored in `mStream`; `none` is `undefined`. -/
  mStream : Option Nat
  /-- State of the recorder stored in `mMediaRecorder`; `none` is `undefined`. -/
  mMediaRecorder : Option RecorderState
  /-- Whether `mAudioContext` holds a context (`false`: `undefined` or `null`). -/
  mAudioContext : Bool
  /-- The `fftSize` of `mAnalyzer`; `none` when `mAnalyzer` is `undefined`. -/
  mAnalyzer : Option Nat
  /-- Timer id stored in `mSilenceTimeout`; `none` is `undefined` or `null`. -/
  mSilenceTimeout : Option Nat
  mIsRecording : Bool
  /-- Silence duration in milliseconds (1500 in the script). -/
  mSilenceDuration : Nat
  /-- Amplitude threshold (0.1 in the script). -/
  mSilenceThreshold : ℚ
  mBufferLength : Nat
  /-- Width of `mCanvas`. -/
  canvasWidth : ℚ
  /-- Height of `mCanvas`. -/
  canvasHeight : ℚ
  /-- Streams whose tracks are live. -/
  liveStreams : List Nat
  /-- Number of streams handed out by `getUserMedia` so far. -/
  nextStream : Nat
  /-- Pending timers: id and due time in milliseconds. -/
  timers : List (Nat × Nat)
  /-- Number of timer ids handed out by `setTimeout` so far. -/
  nextTimer : Nat
  /-- Current time in milliseconds. -/
  now : Nat
  /-- Callbacks scheduled for the next animation frame. -/
  frames : List Callback
  /-- Whether the mic button carries the `recording` class. -/
  indicator : Bool
  /-- Recorder `stop` events queued and not yet delivered to the listener. -/
  stopEvents : Nat
  /-- Stop listeners suspended at `await mCaller.invokeMethodAsync`. -/
  awaitingHost : Nat
  /-- Effects performed so far, oldest first. -/
  log : List Effect
  deriving DecidableEq

/-- The state of the module right after the script is loaded, for a given
configuration and canvas size. -/
def initial (duration : Nat) (threshold W H : ℚ) : State :=
  { mStream := none, mMediaRecorder := none, mAudioContext := false, mAnalyzer := none,
    mSilenceTimeout := none, mIsRecording := false, mSilenceDuration := duration,
    mSilenceThreshold := threshold, mBufferLength := 0, canvasWidth := W, canvasHeight := H,
    liveStreams := [], nextStream := 0, timers := [], nextTimer := 0, now := 0,
    frames := [], indicator := false, stopEvents := 0, awaitingHost := 0, log := [] }

/-- JavaScript truthiness of a timer handle: `undefined`, `null` and `0` are falsy. -/
def truthy (handle : Option Nat) : Bool :=
  match handle with
  | none => false
  | some id => id != 0

/-- Platform `clearTimeout`: removes the timer with the given id from the pending
timers; a handle that is `undefined`, `null` or not pending is ignored. -/
def clearTimeout (handle : Option Nat) (timers : List (Nat × Nat)) : List (Nat × Nat) :=
  match handle with
  | none => timers
  | some id => timers.filter (fun t => t.1 != id)

/-- Adds an effect to the log. -/
def emit (e : Effect) (s : State) : State :=
  { s with log := s.log ++ [e] }

/-- `startAnimation`: adds the `recording` class to the mic button. -/
def startAnimation (s : State) : State :=
  emit .classAdd { s with indicator := true }

/-- `stopAnimation`: removes the `recording` class and clears the canvas. -/
def stopAnimation (s : State) : State :=
  emit (.canvas (.clearRect 0 0 s.canvasWidth s.canvasHeight))
    (emit .classRemove { s with indicator := false })

/-- The guard of `stopRecording`: `mIsRecording && mMediaRecorder.state !== 'inactive'`. -/
def stopGuard (s : State) : Bool :=
  match s.mMediaRecorder with
  | none => false
  | some r => s.mIsRecording && r != .inactive

/-- `stopRecording`.  With `mMediaRecorder` undefined the guard is either false
(`mIsRecording` false) or throws before any assignment, so nothing changes; with
`mStream` undefined the call throws at `mStream.getTracks()`. -/
def stopRecording (s : State) : State :=
  if stopGuard s then
    let s1 := emit (.setIsRecording false) { s with mIsRecording := false }
    let s2 := emit .recorderStop
      { s1 with mMediaRecorder := some .inactive, stopEvents := s1.stopEvents + 1 }
    match s2.mStream with
    | none => s2
    | some st =>
      let s3 := emit (.tracksStop st)
        { s2 with liveStreams := s2.liveStreams.filter (fun x => x != st) }
      let s4 := emit (.clearTimeout s3.mSilenceTimeout)
        { s3 with timers := clearTimeout s3.mSilenceTimeout s3.timers }
      let s5 := if s4.mAudioContext then emit .contextClose { s4 with mAudioContext := false }
        else s4
      stopAnimation s5
  else s

/-- Platform read into a `Uint8Array` of `len` bytes (`getByteFrequencyData`,
`getByteTimeDomainData`): the array keeps its length, every element is a byte, and
`src` is what the analyser delivers. -/
def readBytes (len : Nat) (src : List Nat) : List Nat :=
  (List.range len).map (fun i => src.getD i 0 % 256)

/-- `buffer.reduce((sum, value) => sum + value) / buffer.length`.  `reduce` without an
initial value throws on an empty array, which is `none` here. -/
def average (buffer : List Nat) : Option ℚ :=
  match buffer with
  | [] => none
  | v :: vs => some (((vs.foldl (fun sum value => sum + value) v : Nat) : ℚ) / (buffer.length : ℚ))

/-- The test `average < mSilenceThreshold * 255` of `checkSilence`: `some true` when
the tick is silent, `some false` when it is not, `none` when computing the average
throws. -/
def silenceTest (threshold : ℚ) (buffer : List Nat) : Option Bool :=
  (average buffer).map (fun avg => decide (avg < threshold * 255))

/-- One run of the `checkSilence` closure whose buffer has `bufLen` bytes, `src` being
what the analyser delivers.  An empty buffer makes `reduce` throw, which ends the
callback before anything is changed or rescheduled. -/
def checkSilence (bufLen : Nat) (src : List Nat) (s : State) : State :=
  let buffer := readBytes bufLen src
  match silenceTest s.mSilenceThreshold buffer with
  | none => s
  | some silent =>
    let s1 :=
      if silent then
        if !truthy s.mSilenceTimeout then
          emit (.setTimeout (s.nextTimer + 1) s.mSilenceDuration)
            { s with mSilenceTimeout := some (s.nextTimer + 1),
                     timers := s.timers ++ [(s.nextTimer + 1, s.now + s.mSilenceDuration)],
                     nextTimer := s.nextTimer + 1 }
        else s
      else
        emit (.clearTimeout s.mSilenceTimeout)
          { s with timers := clearTimeout s.mSilenceTimeout s.timers, mSilenceTimeout := none }
    emit (.requestFrame (.checkSilence bufLen))
      { s1 with frames := s1.frames ++ [.checkSilence bufLen] }

/-- `detectSilence`: allocates a buffer of `mAnalyzer.fftSize` bytes and runs the first
`checkSilence` at once.  With `mAnalyzer` undefined the call throws. -/
def detectSilence (src : List Nat) (s : State) : State :=
  match s.mAnalyzer with
  | none => s
  | some fftSize => checkSilence fftSize src s

/-- The loop of `drawWave` from index `i` on, `x` being the running abscissa: one
`moveTo` for index 0 and one `lineTo` for every later index. -/
def waveLoop (sliceWidth H : ℚ) (data : List Nat) : Nat → Nat → ℚ → List CanvasOp
  | 0, _, _ => []
  | k + 1, i, x =>
    (if i = 0 then CanvasOp.moveTo x ((data.getD i 0 : ℚ) / 128 * H / 2)
      else CanvasOp.lineTo x ((data.getD i 0 : ℚ) / 128 * H / 2))
      :: waveLoop sliceWidth H data k (i + 1) (x + sliceWidth)

/-- The canvas calls of one `drawWave` frame for a surface `W` by `H` and a data array
of `N` samples. -/
def wavePath (W H : ℚ) (N : Nat) (data : List Nat) : List CanvasOp :=
  [CanvasOp.fillRect 0 0 W H, CanvasOp.beginPath]
    ++ waveLoop (W * 1 / N) H data N 0 0
    ++ [CanvasOp.lineTo W (H / 2), CanvasOp.stroke]

/-- The point a path call draws to, if it is a `moveTo` or a `lineTo`. -/
def CanvasOp.point : CanvasOp → Option (ℚ × ℚ)
  | .moveTo x y => some (x, y)
  | .lineTo x y => some (x, y)
  | _ => none

/-- The points drawn by one `drawWave` frame, in order. -/
def wavePoints (W H : ℚ) (N : Nat) (data : List Nat) : List (ℚ × ℚ) :=
  (wavePath W H N data).filterMap CanvasOp.point

/-- One run of `drawWave`, `src` being what the analyser delivers. -/
def drawWave (src : List Nat) (s : State) : State :=
  if !s.mIsRecording then s
  else
    let s1 := emit (.requestFrame .drawWave) { s with frames := s.frames ++ [.drawWave] }
    { s1 with log := s1.log ++
        (wavePath s1.canvasWidth s1.canvasHeight s1.mBufferLength
          (readBytes s1.mBufferLength src)).map Effect.canvas }

/-- `startRecording`. -/
def startRecording (silenceSrc waveSrc : List Nat) (s : State) : State :=
  let s1 := emit (.setIsRecording true) { s with mIsRecording := true }
  let s2 := emit .recorderStart { s1 with mMediaRecorder := some .recording }
  let s3 := startAnimation s2
  let s4 := detectSilence silenceSrc s3
  drawWave waveSrc s4

/-- `BlazorAudioRecorder.StartRecord`, from the point where `getUserMedia` settles:
`acquire` is its outcome.  On rejection the async function rejects with the same error
and no statement after the `await` runs. -/
def StartRecord (acquire : Except String Unit) (silenceSrc waveSrc : List Nat) (s : State) :
    Except String Unit × State :=
  match acquire with
  | .error e => (.error e, s)
  | .ok _ =>
    let s1 := { s with mStream := some (s.nextStream + 1),
                       liveStreams := (s.nextStream + 1) :: s.liveStreams,
                       nextStream := s.nextStream + 1,
                       mMediaRecorder := some .inactive,
                       mAudioContext := true,
                       mAnalyzer := some 256,
                       mBufferLength := 256 / 2 }
    (.ok (), startRecording silenceSrc waveSrc s1)

/-- First part of the recorder's `stop` listener: builds the blob and its URL, plays it
and calls `OnAudioUrl`, then suspends until the host answers. -/
def stopListener (s : State) : State :=
  if 0 < s.stopEvents then
    emit .invokeOnAudioUrl
      (emit .audioPlay { s with stopEvents := s.stopEvents - 1, awaitingHost := s.awaitingHost + 1 })
  else s

/-- Second part of the `stop` listener, after the `await`: `stopAnimation()`. -/
def stopListenerResume (s : State) : State :=
  if 0 < s.awaitingHost then stopAnimation { s with awaitingHost := s.awaitingHost - 1 }
  else s

/-- The callback of the silence timer with the given id fires: possible only once the
timer is due; the timer leaves the pending set and `stopRecording` runs. -/
def timerFires (id : Nat) (s : State) : State :=
  match s.timers.find? (fun t => t.1 == id) with
  | none => s
  | some t =>
    if t.2 ≤ s.now then stopRecording { s with timers := s.timers.filter (fun u => u.1 != id) }
    else s

/-- A scheduled animation-frame callback runs, if it is scheduled. -/
def frameRuns (cb : Callback) (src : List Nat) (s : State) : State :=
  if cb ∈ s.frames then
    match cb with
    | .checkSilence bufLen => checkSilence bufLen src { s with frames := s.frames.erase cb }
    | .drawWave => drawWave src { s with frames := s.frames.erase cb }
  else s

/-- The platform stops the recorder by itself, because the recorder failed or because
the tracks of its stream ended (`tracksEnded`): the recorder becomes inactive and its
`stop` event is queued.  No statement of the script runs, so `mIsRecording` keeps
its value. -/
def recorderEnds (tracksEnded : Bool) (s : State) : State :=
  match s.mMediaRecorder with
  | none => s
  | some r =>
    if r != .inactive then
      { s with mMediaRecorder := some .inactive,
               stopEvents := s.stopEvents + 1,
               liveStreams :=
                 if tracksEnded then
                   match s.mStream with
                   | none => s.liveStreams
                   | some st => s.liveStreams.filter (fun x => x != st)
                 else s.liveStreams }
    else s

/-- Tasks the browser's event loop can run on the module. -/
inductive Event where
  | startRecord (acquire : Except String Unit) (silenceSrc waveSrc : List Nat)
  | frame (cb : Callback) (src : List Nat)
  | timeout (id : Nat)
  | stop
  | recorderStopped
  | hostAnswered
  | recorderEnds (tracksEnded : Bool)
  | advance (dt : Nat)

/-- Runs one task. -/
def step (s : State) (e : Event) : State :=
  match e with
  | .startRecord acquire silenceSrc waveSrc => (StartRecord acquire silenceSrc waveSrc s).2
  | .frame cb src => frameRuns cb src s
  | .timeout id => timerFires id s
  | .stop => stopRecording s
  | .recorderStopped => stopListener s
  | .hostAnswered => stopListenerResume s
  | .recorderEnds tracksEnded => recorderEnds tracksEnded s
  | .advance dt => { s with now := s.now + dt }

/-- Runs a sequence of tasks. -/
def run (s : State) (es : List Event) : State :=
  es.foldl step s

/-- States reachable from a freshly loaded module. -/
def Reachable (s : State) : Prop :=
  ∃ duration threshold W H es, s = run (initial duration threshold W H) es

/-- The effects performed between state `s` and a later state `t`. -/
def effectsSince (s t : State) : List Effect :=
  t.log.drop s.log.length

/-- Whether an effect is a release of stream tracks. -/
def Effect.isTracksStop : Effect → Bool
  | .tracksStop _ => true
  | _ => false

/-- A session is recording: the guard of `stopRecording` holds and `mStream` holds
the session's stream. -/
def Recording (s : State) : Prop :=
  stopGuard s = true ∧ s.mStream.isSome = true

instance (s : State) : Decidable (Recording s) := by
  unfold Recording; infer_instance

/-- Effect `a` occurs in `l` strictly before effect `b` does. -/
def Before (a b : Effect) (l : List Effect) : Prop :=
  a ∈ l ∧ b ∈ l ∧ l.indexOf a < l.indexOf b

instance (a b : Effect) (l : List Effect) : Decidable (Before a b l) := by
  unfold Before; infer_instance

/-- A state in the middle of a session: recording on stream 1, silence timer 1 pending
and due at 1500 ms, both frame loops scheduled. -/
def midSession : State :=
  { mStream := some 1, mMediaRecorder := some .recording, mAudioContext := true,
    mAnalyzer := some 256, mSilenceTimeout := some 1, mIsRecording := true,
    mSilenceDuration := 1500, mSilenceThreshold := 1 / 10, mBufferLength := 128,
    canvasWidth := 300, canvasHeight := 150, liveStreams := [1], nextStream := 1,
    timers := [(1, 1500)], nextTimer := 1, now := 0,
    frames := [.checkSilence 256, .drawWave], indicator := true, stopEvents := 0,
    awaitingHost := 0, log := [] }

/-- Every scheduled `checkSilence` closure owns a buffer of 256 bytes, and so does
every closure `detectSilence` may create. -/
def BufferInv (s : State) : Prop :=
  (∀ n, Callback.checkSilence n ∈ s.frames → n = 256) ∧ (∀ n, s.mAnalyzer = some n → n = 256)

/-- The state of a successful `StartRecord` at the point where `startRecording` calls
`detectSilence()`. -/
def sessionSetup (s : State) : State :=
  { s with mStream := some (s.nextStream + 1),
           liveStreams := (s.nextStream + 1) :: s.liveStreams,
           nextStream := s.nextStream + 1,
           mMediaRecorder := some .recording,
           mAudioContext := true,
           mAnalyzer := some 256,
           mBufferLength := 256 / 2,
           mIsRecording := true,
           indicator := true,
           log := s.log ++ [.setIsRecording true, .recorderStart, .classAdd] }

/-- Every pending timer is the one whose id is stored in `mSilenceTimeout`, its id is
not 0, and at most one timer is pending. -/
def TimerInv (s : State) : Prop :=
  (∀ t ∈ s.timers, s.mSilenceTimeout = some t.1 ∧ t.1 ≠ 0) ∧ s.timers.length ≤ 1

/-- Whether an event is a successful `StartRecord`. -/
def Event.isStart : Event → Bool
  | .startRecord (.ok _) _ _ => true
  | _ => false

/-- Whether an event runs a `checkSilence` tick that the test classifies as silent. -/
def Event.silentTick (threshold : ℚ) : Event → Bool
  | .frame (.checkSilence n) src => silenceTest threshold (readBytes n src) == some true
  | .startRecord (.ok _) silenceSrc _ => silenceTest threshold (readBytes 256 silenceSrc) == some true
  | _ => false

/-- Whether an event runs a `checkSilence` tick that the test classifies as not silent. -/
def Event.loudTick (threshold : ℚ) : Event → Bool
  | .frame (.checkSilence n) src => silenceTest threshold (readBytes n src) == some false
  | .startRecord (.ok _) silenceSrc _ => silenceTest threshold (readBytes 256 silenceSrc) == some false
  | _ => false

/-- Events of a session left to itself while the input stays silent: frames whose
`checkSilence` tick is not loud, timer callbacks, recorder events, passing time; no
`StartRecord`, no direct call of `stopRecording` and no recorder stopped by the
platform. -/
def Event.ambientSilence (threshold : ℚ) : Event → Bool
  | .startRecord _ _ _ => false
  | .stop => false
  | .recorderEnds _ => false
  | e => !e.loudTick threshold

/-- No session holds resources: not recording and no `drawWave` frame scheduled. -/
def Idle (s : State) : Prop :=
  s.mIsRecording = false ∧ Callback.drawWave ∉ s.frames

/-- In a session started from idle: while `mIsRecording` is true exactly one
`drawWave` frame is scheduled; otherwise at most one is. -/
def WaveInv (s : State) : Prop :=
  (s.mIsRecording = true → s.frames.count .drawWave = 1) ∧
  (s.mIsRecording = false → s.frames.count .drawWave ≤ 1)

/-- A freshly loaded module with the script's configuration (1500 ms, 0.1) and a
canvas of 300 by 150. -/
def loaded : State := initial 1500 (1 / 10) 300 150

/-- A first session over silent input, from `StartRecord` to the end of the recorder's
`stop` listener: the silence timer is armed by the first tick and fires when due. -/
def silentSession : List Event :=
  [.startRecord (.ok ()) [] [], .frame (.checkSilence 256) [], .frame .drawWave [],
   .advance 1500, .timeout 1, .frame .drawWave [], .recorderStopped, .hostAnswered]

/-- The module after one complete silent session. -/
def afterFirstSession : State := run loaded silentSession

/-- The module after one complete silent session and a second successful
`StartRecord` over silent input. -/
def secondSession : State := step afterFirstSession (.startRecord (.ok ()) [] [])

/-- The module right after a first successful `StartRecord` over silent input. -/
def firstTick : State := step loaded (.startRecord (.ok ()) [] [])

/-- Analyser output at full scale in every bin. -/
def loudInput : List Nat := List.replicate 256 255

/-- The point `drawWave` draws for sample `i` of `data` on a surface `W` by `H` with
`N` samples, as the specification gives it: `(i*W/N, (s_i/128)*H/2)`. -/
def specPoint (W H : ℚ) (N : Nat) (data : List Nat) (i : Nat) : ℚ × ℚ :=
  ((i : ℚ) * W / N, ((data.getD i 0 : ℚ) / 128) * H / 2)

/-- A first session in which the platform stops the recorder by itself (a recorder
error, the tracks staying live) before the silence timer fires; the timer then fires
when due and one more `drawWave` frame runs. -/
def faultedSession : List Event :=
  [.startRecord (.ok ()) [] [], .recorderEnds false, .advance 1500, .timeout 1,
   .frame .drawWave []]

/-- The module after `faultedSession`. -/
def afterFault : State := run loaded faultedSession

/-- The flag `mIsRecording` is true while the recorder is inactive. -/
def Stuck (s : State) : Prop :=
  s.mIsRecording = true ∧ s.mMediaRecorder = some .inactive

/-- A session is recording while the handle still holds a timer id although no timer
is pending. -/
def StaleHandle (s : State) : Prop :=
  s.mIsRecording = true ∧ s.mMediaRecorder = some .recording ∧
    truthy s.mSilenceTimeout = true ∧ s.timers = []

/-! # Theorems -/

/-! ## stopRecording -/

theorem stopRecording_of_not_guard (s : State) (h : stopGuard s = false) :
    stopRecording s = s := by
  simp [stopRecording, h]

theorem stopGuard_stopRecording (s : State) : stopGuard (stopRecording s) = false := by
  by_cases h : stopGuard s = true
  · rw [stopRecording, if_pos h]
    cases hst : s.mStream <;> cases hctx : s.mAudioContext <;>
      simp [hst, hctx, stopGuard, emit, stopAnimation]
  · have h' : stopGuard s = false := by simpa using h
    rw [stopRecording_of_not_guard s h']; exact h'

/-- The effects of `stopRecording` in a recording state, in order. -/
theorem stopRecording_log (s : State) (st : Nat) (hg : stopGuard s = true)
    (hst : s.mStream = some st) :
    (stopRecording s).log = s.log ++
      ([.setIsRecording false, .recorderStop, .tracksStop st, .clearTimeout s.mSilenceTimeout]
        ++ (if s.mAudioContext then [Effect.contextClose] else [])
        ++ [.classRemove, .canvas (.clearRect 0 0 s.canvasWidth s.canvasHeight)]) := by
  cases hctx : s.mAudioContext <;>
    simp [stopRecording, hg, hst, hctx, emit, stopAnimation]

theorem effectsSince_append (s t : State) (l : List Effect) (h : t.log = s.log ++ l) :
    effectsSince s t = l := by
  simp [effectsSince, h]

/-- C1. `stopRecording` is idempotent: in every state a second call right after the
first changes nothing and performs no effect, and when the session is recording the
two calls together perform exactly one `MediaRecorder.stop()` (queueing exactly one
`stop` event, hence one `OnAudioUrl` handoff) and exactly one release of the stream
tracks, the second call being made with `mIsRecording` false. -/
theorem stopRecording_idempotent (s : State) :
    stopRecording (stopRecording s) = stopRecording s ∧
    effectsSince (stopRecording s) (stopRecording (stopRecording s)) = [] ∧
    (Recording s →
      (effectsSince s (stopRecording (stopRecording s))).count .recorderStop = 1 ∧
      (effectsSince s (stopRecording (stopRecording s))).countP Effect.isTracksStop = 1 ∧
      (stopRecording s).mIsRecording = false ∧
      (stopRecording (stopRecording s)).stopEvents = s.stopEvents + 1) := by
  have hid : stopRecording (stopRecording s) = stopRecording s :=
    stopRecording_of_not_guard _ (stopGuard_stopRecording s)
  refine ⟨hid, ?_, ?_⟩
  · rw [hid]; simp [effectsSince]
  · rintro ⟨hg, hst⟩
    obtain ⟨st, hst⟩ := Option.isSome_iff_exists.mp hst
    rw [hid, effectsSince_append s _ _ (stopRecording_log s st hg hst)]
    refine ⟨?_, ?_, ?_, ?_⟩
    · cases s.mAudioContext <;> simp [List.count_cons]
    · cases s.mAudioContext <;> simp [List.countP_cons, Effect.isTracksStop]
    · rw [stopRecording, if_pos hg]
      cases hctx : s.mAudioContext <;> simp [hst, hctx, emit, stopAnimation]
    · rw [stopRecording, if_pos hg]
      cases hctx : s.mAudioContext <;> simp [hst, hctx, emit, stopAnimation]

/-- C1, at a concrete recording state. -/
theorem stopRecording_idempotent_witness :
    Recording midSession ∧
    (effectsSince midSession (stopRecording (stopRecording midSession))).count .recorderStop = 1 ∧
    (effectsSince midSession (stopRecording (stopRecording midSession))).countP
      Effect.isTracksStop = 1 ∧
    (stopRecording midSession).mIsRecording = false ∧
    (stopRecording (stopRecording midSession)).stopEvents = midSession.stopEvents + 1 :=
  ⟨by decide, (stopRecording_idempotent midSession).2.2 (by decide)⟩

/-- C7, refuted as stated: in the effects of `stopRecording` from a recording state,
`clearTimeout` does not come before the release of the stream tracks. -/
theorem stopRecording_cancel_before_release_fails :
    ¬ (Before (.clearTimeout midSession.mSilenceTimeout) (.tracksStop 1)
          (effectsSince midSession (stopRecording midSession)) ∧
       Before (.setIsRecording false) (.tracksStop 1)
          (effectsSince midSession (stopRecording midSession))) := by
  rw [effectsSince_append midSession _ _
    (stopRecording_log midSession 1 (by decide) (by decide))]
  simp [Before, midSession, List.indexOf_cons]

/-- C7, amended: from a recording state `stopRecording` performs, in this order,
`mIsRecording := false`, `MediaRecorder.stop()`, the release of the stream tracks,
`clearTimeout(mSilenceTimeout)`, the closing of the audio context when there is one,
and `stopAnimation`.  So the renderer's reschedule is halted strictly before the
tracks are stopped, and the silence timer is cancelled strictly after, within the same
call. -/
theorem stopRecording_effect_order (s : State) (st : Nat) (hg : stopGuard s = true)
    (hst : s.mStream = some st) :
    effectsSince s (stopRecording s) =
      [.setIsRecording false, .recorderStop, .tracksStop st, .clearTimeout s.mSilenceTimeout]
        ++ (if s.mAudioContext then [Effect.contextClose] else [])
        ++ [.classRemove, .canvas (.clearRect 0 0 s.canvasWidth s.canvasHeight)] ∧
    Before (.setIsRecording false) (.tracksStop st) (effectsSince s (stopRecording s)) ∧
    Before (.tracksStop st) (.clearTimeout s.mSilenceTimeout)
      (effectsSince s (stopRecording s)) := by
  rw [effectsSince_append s _ _ (stopRecording_log s st hg hst)]
  refine ⟨rfl, ?_, ?_⟩ <;> simp [Before, List.indexOf_cons]

/-- C7 amended, at a concrete recording state. -/
theorem stopRecording_effect_order_witness :
    stopGuard midSession = true ∧ midSession.mStream = some 1 ∧
    Before (.setIsRecording false) (.tracksStop 1)
      (effectsSince midSession (stopRecording midSession)) ∧
    Before (.tracksStop 1) (.clearTimeout midSession.mSilenceTimeout)
      (effectsSince midSession (stopRecording midSession)) :=
  ⟨by decide, by decide, (stopRecording_effect_order midSession 1 (by decide) (by decide)).2⟩

/-! ## Reachable states -/

theorem run_invariant (P : State → Prop) (hstep : ∀ s e, P s → P (step s e)) :
    ∀ (es : List Event) (s : State), P s → P (run s es) := by
  intro es
  induction es with
  | nil => intro s hs; exact hs
  | cons e es ih => intro s hs; exact ih (step s e) (hstep s e hs)

theorem reachable_invariant (P : State → Prop)
    (hinit : ∀ duration threshold W H, P (initial duration threshold W H))
    (hstep : ∀ s e, P s → P (step s e)) (s : State) (hs : Reachable s) : P s := by
  obtain ⟨duration, threshold, W, H, es, rfl⟩ := hs
  exact run_invariant P hstep es _ (hinit duration threshold W H)

theorem run_cons (s : State) (e : Event) (es : List Event) :
    run s (e :: es) = run (step s e) es := rfl

theorem run_append (s : State) (es fs : List Event) :
    run s (es ++ fs) = run (run s es) fs := by
  simp [run, List.foldl_append]

theorem reachable_run (s : State) (hs : Reachable s) (es : List Event) :
    Reachable (run s es) := by
  obtain ⟨duration, threshold, W, H, fs, rfl⟩ := hs
  exact ⟨duration, threshold, W, H, fs ++ es, (run_append _ fs es).symm⟩

/-! ## The silence test -/

theorem readBytes_length (len : Nat) (src : List Nat) : (readBytes len src).length = len := by
  simp [readBytes]

theorem readBytes_lt (len : Nat) (src : List Nat) (v : Nat) (hv : v ∈ readBytes len src) :
    v < 256 := by
  simp only [readBytes, List.mem_map] at hv
  obtain ⟨i, _, rfl⟩ := hv
  exact Nat.mod_lt _ (by norm_num)

theorem foldl_add_eq_sum (vs : List Nat) (v : Nat) :
    vs.foldl (fun sum value => sum + value) v = v + vs.sum := by
  induction vs generalizing v with
  | nil => simp
  | cons w ws ih => simp [ih, Nat.add_assoc]

theorem average_eq (buffer : List Nat) (h : buffer ≠ []) :
    average buffer = some ((buffer.sum : ℚ) / (buffer.length : ℚ)) := by
  cases buffer with
  | nil => exact absurd rfl h
  | cons v vs => simp [average, foldl_add_eq_sum]

theorem silenceTest_eq (threshold : ℚ) (buffer : List Nat) (h : buffer ≠ []) :
    silenceTest threshold buffer =
      some (decide ((buffer.sum : ℚ) / (buffer.length : ℚ) < threshold * 255)) := by
  simp [silenceTest, average_eq buffer h]

theorem readBytes_ne_nil (len : Nat) (src : List Nat) (h : 0 < len) : readBytes len src ≠ [] := by
  intro hnil
  have := readBytes_length len src
  rw [hnil] at this
  simp at this
  omega

/-! ## Normal forms of the operations -/

theorem stopRecording_eq (s : State) (st : Nat) (hg : stopGuard s = true)
    (hst : s.mStream = some st) :
    stopRecording s =
      { s with mIsRecording := false, mMediaRecorder := some .inactive,
               stopEvents := s.stopEvents + 1,
               liveStreams := s.liveStreams.filter (fun x => x != st),
               timers := clearTimeout s.mSilenceTimeout s.timers,
               mAudioContext := false, indicator := false,
               log := s.log ++
                 ([.setIsRecording false, .recorderStop, .tracksStop st,
                   .clearTimeout s.mSilenceTimeout]
                  ++ (if s.mAudioContext then [Effect.contextClose] else [])
                  ++ [.classRemove, .canvas (.clearRect 0 0 s.canvasWidth s.canvasHeight)]) } := by
  rw [stopRecording, if_pos hg]
  cases hctx : s.mAudioContext <;> simp [hst, hctx, emit, stopAnimation]

theorem stopRecording_eq_of_no_stream (s : State) (hg : stopGuard s = true)
    (hst : s.mStream = none) :
    stopRecording s =
      { s with mIsRecording := false, mMediaRecorder := some .inactive,
               stopEvents := s.stopEvents + 1,
               log := s.log ++ [.setIsRecording false, .recorderStop] } := by
  rw [stopRecording, if_pos hg]
  simp [hst, emit]

/-- What `stopRecording` leaves alone, and what it does to the pending timers. -/
theorem stopRecording_fields (s : State) :
    (stopRecording s).frames = s.frames ∧ (stopRecording s).mAnalyzer = s.mAnalyzer ∧
    (stopRecording s).mSilenceTimeout = s.mSilenceTimeout ∧
    (stopRecording s).nextTimer = s.nextTimer ∧ (stopRecording s).now = s.now ∧
    (stopRecording s).mSilenceThreshold = s.mSilenceThreshold ∧
    (stopRecording s).mSilenceDuration = s.mSilenceDuration ∧
    (stopRecording s).mBufferLength = s.mBufferLength ∧
    (stopRecording s).mStream = s.mStream ∧
    ((stopRecording s).timers = s.timers ∨
      (stopRecording s).timers = clearTimeout s.mSilenceTimeout s.timers) := by
  by_cases hg : stopGuard s = true
  · cases hst : s.mStream with
    | none => rw [stopRecording_eq_of_no_stream s hg hst]; simp [hst]
    | some st => rw [stopRecording_eq s st hg hst]; simp [hst]
  · rw [stopRecording_of_not_guard s (by simpa using hg)]; simp

theorem checkSilence_of_none (bufLen : Nat) (src : List Nat) (s : State)
    (h : silenceTest s.mSilenceThreshold (readBytes bufLen src) = none) :
    checkSilence bufLen src s = s := by
  simp [checkSilence, h]

/-- A silent tick with an empty handle arms a timer due `mSilenceDuration` later. -/
theorem checkSilence_arm (bufLen : Nat) (src : List Nat) (s : State)
    (h : silenceTest s.mSilenceThreshold (readBytes bufLen src) = some true)
    (hh : truthy s.mSilenceTimeout = false) :
    checkSilence bufLen src s =
      { s with mSilenceTimeout := some (s.nextTimer + 1),
               timers := s.timers ++ [(s.nextTimer + 1, s.now + s.mSilenceDuration)],
               nextTimer := s.nextTimer + 1,
               frames := s.frames ++ [.checkSilence bufLen],
               log := s.log ++ [.setTimeout (s.nextTimer + 1) s.mSilenceDuration,
                                .requestFrame (.checkSilence bufLen)] } := by
  simp [checkSilence, h, hh, emit]

/-- A silent tick with a handle already set only reschedules itself. -/
theorem checkSilence_keep (bufLen : Nat) (src : List Nat) (s : State)
    (h : silenceTest s.mSilenceThreshold (readBytes bufLen src) = some true)
    (hh : truthy s.mSilenceTimeout = true) :
    checkSilence bufLen src s =
      { s with frames := s.frames ++ [.checkSilence bufLen],
               log := s.log ++ [.requestFrame (.checkSilence bufLen)] } := by
  simp [checkSilence, h, hh, emit]

/-- A tick that is not silent cancels the timer of the handle and empties the handle. -/
theorem checkSilence_clear (bufLen : Nat) (src : List Nat) (s : State)
    (h : silenceTest s.mSilenceThreshold (readBytes bufLen src) = some false) :
    checkSilence bufLen src s =
      { s with timers := clearTimeout s.mSilenceTimeout s.timers, mSilenceTimeout := none,
               frames := s.frames ++ [.checkSilence bufLen],
               log := s.log ++ [.clearTimeout s.mSilenceTimeout,
                                .requestFrame (.checkSilence bufLen)] } := by
  simp [checkSilence, h, emit]

/-- The four ways a `checkSilence` tick can go. -/
theorem checkSilence_cases (bufLen : Nat) (src : List Nat) (s : State) :
    (silenceTest s.mSilenceThreshold (readBytes bufLen src) = none) ∨
    (silenceTest s.mSilenceThreshold (readBytes bufLen src) = some true ∧
      truthy s.mSilenceTimeout = false) ∨
    (silenceTest s.mSilenceThreshold (readBytes bufLen src) = some true ∧
      truthy s.mSilenceTimeout = true) ∨
    (silenceTest s.mSilenceThreshold (readBytes bufLen src) = some false) := by
  cases h : silenceTest s.mSilenceThreshold (readBytes bufLen src) with
  | none => simp
  | some b => cases b <;> cases truthy s.mSilenceTimeout <;> simp

theorem drawWave_of_not_recording (src : List Nat) (s : State) (h : s.mIsRecording = false) :
    drawWave src s = s := by
  simp [drawWave, h]

theorem drawWave_of_recording (src : List Nat) (s : State) (h : s.mIsRecording = true) :
    drawWave src s =
      { s with frames := s.frames ++ [.drawWave],
               log := s.log ++ [.requestFrame .drawWave] ++
                 (wavePath s.canvasWidth s.canvasHeight s.mBufferLength
                   (readBytes s.mBufferLength src)).map Effect.canvas } := by
  simp [drawWave, h, emit]


theorem StartRecord_ok (silenceSrc waveSrc : List Nat) (s : State) :
    StartRecord (.ok ()) silenceSrc waveSrc s =
      (.ok (), drawWave waveSrc (checkSilence 256 silenceSrc (sessionSetup s))) := by
  simp [StartRecord, startRecording, startAnimation, detectSilence, emit, sessionSetup]

theorem StartRecord_error (e : String) (silenceSrc waveSrc : List Nat) (s : State) :
    StartRecord (.error e) silenceSrc waveSrc s = (.error e, s) := rfl

/-- What a `checkSilence` tick leaves alone. -/
theorem checkSilence_fields (bufLen : Nat) (src : List Nat) (s : State) :
    (checkSilence bufLen src s).mIsRecording = s.mIsRecording ∧
    (checkSilence bufLen src s).mMediaRecorder = s.mMediaRecorder ∧
    (checkSilence bufLen src s).mStream = s.mStream ∧
    (checkSilence bufLen src s).mAnalyzer = s.mAnalyzer ∧
    (checkSilence bufLen src s).now = s.now ∧
    (checkSilence bufLen src s).mSilenceThreshold = s.mSilenceThreshold ∧
    (checkSilence bufLen src s).mSilenceDuration = s.mSilenceDuration ∧
    (checkSilence bufLen src s).liveStreams = s.liveStreams ∧
    ((checkSilence bufLen src s).frames = s.frames ∨
      (checkSilence bufLen src s).frames = s.frames ++ [.checkSilence bufLen]) := by
  rcases checkSilence_cases bufLen src s with h | ⟨h, hh⟩ | ⟨h, hh⟩ | h
  · rw [checkSilence_of_none _ _ _ h]; simp
  · rw [checkSilence_arm _ _ _ h hh]; simp
  · rw [checkSilence_keep _ _ _ h hh]; simp
  · rw [checkSilence_clear _ _ _ h]; simp

/-- What a `drawWave` frame leaves alone. -/
theorem drawWave_fields (src : List Nat) (s : State) :
    (drawWave src s).mIsRecording = s.mIsRecording ∧
    (drawWave src s).mMediaRecorder = s.mMediaRecorder ∧
    (drawWave src s).mStream = s.mStream ∧
    (drawWave src s).mAnalyzer = s.mAnalyzer ∧
    (drawWave src s).now = s.now ∧
    (drawWave src s).mSilenceThreshold = s.mSilenceThreshold ∧
    (drawWave src s).mSilenceDuration = s.mSilenceDuration ∧
    (drawWave src s).mSilenceTimeout = s.mSilenceTimeout ∧
    (drawWave src s).timers = s.timers ∧
    (drawWave src s).nextTimer = s.nextTimer ∧
    (drawWave src s).liveStreams = s.liveStreams := by
  cases h : s.mIsRecording
  · rw [drawWave_of_not_recording _ _ h]; simp [h]
  · rw [drawWave_of_recording _ _ h]; simp [h]

theorem drawWave_frames (src : List Nat) (s : State) :
    (drawWave src s).frames = if s.mIsRecording then s.frames ++ [.drawWave] else s.frames := by
  cases h : s.mIsRecording
  · rw [drawWave_of_not_recording _ _ h]; simp
  · rw [drawWave_of_recording _ _ h]; simp

theorem stopListener_eq (s : State) :
    stopListener s = s ∨
    stopListener s = { s with stopEvents := s.stopEvents - 1, awaitingHost := s.awaitingHost + 1,
                              log := s.log ++ [.audioPlay, .invokeOnAudioUrl] } := by
  by_cases h : 0 < s.stopEvents
  · right; simp [stopListener, h, emit]
  · left; simp [stopListener, h]

theorem stopListenerResume_eq (s : State) :
    stopListenerResume s = s ∨
    stopListenerResume s =
      { s with awaitingHost := s.awaitingHost - 1, indicator := false,
               log := s.log ++ [.classRemove,
                 .canvas (.clearRect 0 0 s.canvasWidth s.canvasHeight)] } := by
  by_cases h : 0 < s.awaitingHost
  · right; simp [stopListenerResume, h, emit, stopAnimation]
  · left; simp [stopListenerResume, h]

theorem recorderEnds_eq (tracksEnded : Bool) (s : State) :
    recorderEnds tracksEnded s = s ∨
    ∃ l, recorderEnds tracksEnded s =
      { s with mMediaRecorder := some .inactive, stopEvents := s.stopEvents + 1,
               liveStreams := l } := by
  unfold recorderEnds
  cases s.mMediaRecorder with
  | none => left; rfl
  | some r =>
    by_cases h : (r != .inactive) = true
    · right
      refine ⟨if tracksEnded then
          match s.mStream with
          | none => s.liveStreams
          | some st => s.liveStreams.filter (fun x => x != st)
        else s.liveStreams, ?_⟩
      simp only [h, if_true]
    · left; simp only [h]; rfl

theorem timerFires_eq (id : Nat) (s : State) :
    timerFires id s = s ∨
    ((∃ t ∈ s.timers, t.1 = id ∧ t.2 ≤ s.now) ∧
      timerFires id s = stopRecording { s with timers := s.timers.filter (fun u => u.1 != id) }) := by
  unfold timerFires
  cases h : s.timers.find? (fun t => t.1 == id) with
  | none => left; rfl
  | some t =>
    by_cases hd : t.2 ≤ s.now
    · right
      refine ⟨⟨t, List.mem_of_find?_eq_some h, ?_, hd⟩, by simp [hd]⟩
      simpa using List.find?_some h
    · left; simp [hd]

/-! ## Buffer length -/

theorem BufferInv_initial (duration : Nat) (threshold W H : ℚ) :
    BufferInv (initial duration threshold W H) := by
  simp [BufferInv, initial]

theorem BufferInv_of_fields (s t : State) (hs : BufferInv s) (ha : t.mAnalyzer = s.mAnalyzer)
    (hf : ∀ cb ∈ t.frames, cb ∈ s.frames ∨ cb = .drawWave ∨ cb = .checkSilence 256) :
    BufferInv t := by
  refine ⟨fun n hn => ?_, fun n hn => hs.2 n (ha ▸ hn)⟩
  rcases hf _ hn with h | h | h
  · exact hs.1 n h
  · cases h
  · injection h

theorem BufferInv_checkSilence (n : Nat) (src : List Nat) (s : State) (hs : BufferInv s)
    (hn : n = 256) : BufferInv (checkSilence n src s) := by
  obtain ⟨-, -, -, ha, -, -, -, -, hf⟩ := checkSilence_fields n src s
  refine BufferInv_of_fields s _ hs ha (fun cb hcb => ?_)
  rcases hf with hf | hf <;> rw [hf] at hcb
  · exact Or.inl hcb
  · rcases List.mem_append.mp hcb with h | h
    · exact Or.inl h
    · right; right; simpa [hn] using h

theorem BufferInv_drawWave (src : List Nat) (s : State) (hs : BufferInv s) :
    BufferInv (drawWave src s) := by
  refine BufferInv_of_fields s _ hs (drawWave_fields src s).2.2.2.1 (fun cb hcb => ?_)
  rw [drawWave_frames] at hcb
  split at hcb
  · rcases List.mem_append.mp hcb with h | h
    · exact Or.inl h
    · right; left; simpa using h
  · exact Or.inl hcb

theorem BufferInv_stopRecording (s : State) (hs : BufferInv s) : BufferInv (stopRecording s) := by
  obtain ⟨hf, ha, -⟩ := stopRecording_fields s
  exact BufferInv_of_fields s _ hs ha (fun cb hcb => Or.inl (hf ▸ hcb))

theorem BufferInv_step (s : State) (e : Event) (hs : BufferInv s) : BufferInv (step s e) := by
  cases e with
  | startRecord acquire silenceSrc waveSrc =>
    cases acquire with
    | error err => exact hs
    | ok u =>
      cases u
      simp only [step, StartRecord_ok]
      apply BufferInv_drawWave
      apply BufferInv_checkSilence _ _ _ _ rfl
      exact ⟨fun n hn => hs.1 n (by simpa [sessionSetup] using hn),
        fun n hn => by simpa [sessionSetup] using hn.symm⟩
  | frame cb src =>
    simp only [step, frameRuns]
    split
    · rename_i hmem
      have herase : BufferInv { s with frames := s.frames.erase cb } :=
        ⟨fun n hn => hs.1 n (List.mem_of_mem_erase hn), hs.2⟩
      cases cb with
      | checkSilence n => exact BufferInv_checkSilence _ _ _ herase (hs.1 n hmem)
      | drawWave => exact BufferInv_drawWave _ _ herase
    · exact hs
  | timeout id =>
    simp only [step]
    rcases timerFires_eq id s with h | ⟨-, h⟩ <;> rw [h]
    · exact hs
    · exact BufferInv_stopRecording _ ⟨hs.1, hs.2⟩
  | stop => exact BufferInv_stopRecording s hs
  | recorderStopped =>
    simp only [step]
    rcases stopListener_eq s with h | h <;> rw [h]
    · exact hs
    · exact ⟨hs.1, hs.2⟩
  | hostAnswered =>
    simp only [step]
    rcases stopListenerResume_eq s with h | h <;> rw [h]
    · exact hs
    · exact ⟨hs.1, hs.2⟩
  | recorderEnds tracksEnded =>
    simp only [step]
    rcases recorderEnds_eq tracksEnded s with h | ⟨l, h⟩ <;> rw [h]
    · exact hs
    · exact ⟨hs.1, hs.2⟩
  | advance dt => exact ⟨hs.1, hs.2⟩

theorem BufferInv_reachable (s : State) (hs : Reachable s) : BufferInv s :=
  reachable_invariant BufferInv BufferInv_initial BufferInv_step s hs

/-! ## Pending timers -/

theorem clearTimeout_sublist (h : Option Nat) (l : List (Nat × Nat)) :
    (clearTimeout h l).Sublist l := by
  cases h with
  | none => exact List.Sublist.refl l
  | some id => exact List.filter_sublist l

theorem TimerInv_initial (duration : Nat) (threshold W H : ℚ) :
    TimerInv (initial duration threshold W H) := by
  simp [TimerInv, initial]

theorem TimerInv_of_sublist (s t : State) (hs : TimerInv s)
    (hh : t.mSilenceTimeout = s.mSilenceTimeout) (hsub : t.timers.Sublist s.timers) :
    TimerInv t :=
  ⟨fun x hx => hh ▸ hs.1 x (hsub.subset hx), le_trans hsub.length_le hs.2⟩

theorem timers_nil_of_falsy (s : State) (hs : TimerInv s) (hh : truthy s.mSilenceTimeout = false) :
    s.timers = [] := by
  cases htm : s.timers with
  | nil => rfl
  | cons t ts =>
    obtain ⟨he, hne⟩ := hs.1 t (by simp [htm])
    simp [truthy, he, hne] at hh

theorem clearTimeout_handle_nil (s : State) (hs : TimerInv s) :
    clearTimeout s.mSilenceTimeout s.timers = [] := by
  cases hh : s.mSilenceTimeout with
  | none => simpa [clearTimeout] using timers_nil_of_falsy s hs (by simp [truthy, hh])
  | some id =>
    simp only [clearTimeout, List.filter_eq_nil_iff]
    intro t ht
    have := (hs.1 t ht).1
    rw [hh] at this
    simp [Option.some.inj this]

theorem TimerInv_checkSilence (n : Nat) (src : List Nat) (s : State) (hs : TimerInv s) :
    TimerInv (checkSilence n src s) := by
  rcases checkSilence_cases n src s with h | ⟨h, hh⟩ | ⟨h, hh⟩ | h
  · rw [checkSilence_of_none _ _ _ h]; exact hs
  · rw [checkSilence_arm _ _ _ h hh]
    simp [TimerInv, timers_nil_of_falsy s hs hh]
  · rw [checkSilence_keep _ _ _ h hh]; exact ⟨hs.1, hs.2⟩
  · rw [checkSilence_clear _ _ _ h]
    simp [TimerInv, clearTimeout_handle_nil s hs]

theorem TimerInv_drawWave (src : List Nat) (s : State) (hs : TimerInv s) :
    TimerInv (drawWave src s) := by
  obtain ⟨-, -, -, -, -, -, -, hh, ht, -⟩ := drawWave_fields src s
  exact TimerInv_of_sublist s _ hs hh (ht ▸ List.Sublist.refl _)

theorem TimerInv_stopRecording (s : State) (hs : TimerInv s) : TimerInv (stopRecording s) := by
  obtain ⟨-, -, hh, -, -, -, -, -, -, ht⟩ := stopRecording_fields s
  refine TimerInv_of_sublist s _ hs hh ?_
  rcases ht with ht | ht
  · exact ht ▸ List.Sublist.refl _
  · exact ht ▸ clearTimeout_sublist _ _

theorem TimerInv_step (s : State) (e : Event) (hs : TimerInv s) : TimerInv (step s e) := by
  cases e with
  | startRecord acquire silenceSrc waveSrc =>
    cases acquire with
    | error err => exact hs
    | ok u =>
      cases u
      simp only [step, StartRecord_ok]
      exact TimerInv_drawWave _ _ (TimerInv_checkSilence _ _ _ ⟨hs.1, hs.2⟩)
  | frame cb src =>
    simp only [step, frameRuns]
    split
    · cases cb with
      | checkSilence n => exact TimerInv_checkSilence _ _ _ ⟨hs.1, hs.2⟩
      | drawWave => exact TimerInv_drawWave _ _ ⟨hs.1, hs.2⟩
    · exact hs
  | timeout id =>
    simp only [step]
    rcases timerFires_eq id s with h | ⟨-, h⟩ <;> rw [h]
    · exact hs
    · exact TimerInv_stopRecording _
        (TimerInv_of_sublist s _ hs rfl (List.filter_sublist s.timers))
  | stop => exact TimerInv_stopRecording s hs
  | recorderStopped =>
    simp only [step]
    rcases stopListener_eq s with h | h <;> rw [h]
    · exact hs
    · exact ⟨hs.1, hs.2⟩
  | hostAnswered =>
    simp only [step]
    rcases stopListenerResume_eq s with h | h <;> rw [h]
    · exact hs
    · exact ⟨hs.1, hs.2⟩
  | recorderEnds tracksEnded =>
    simp only [step]
    rcases recorderEnds_eq tracksEnded s with h | ⟨l, h⟩ <;> rw [h]
    · exact hs
    · exact ⟨hs.1, hs.2⟩
  | advance dt => exact ⟨hs.1, hs.2⟩

theorem TimerInv_reachable (s : State) (hs : Reachable s) : TimerInv s :=
  reachable_invariant TimerInv TimerInv_initial TimerInv_step s hs

theorem TimerInv_run (s : State) (es : List Event) (hs : TimerInv s) : TimerInv (run s es) :=
  run_invariant TimerInv TimerInv_step es s hs

/-! ## Configuration and handle along a run -/

theorem step_config (s : State) (e : Event) :
    (step s e).mSilenceThreshold = s.mSilenceThreshold ∧
    (step s e).mSilenceDuration = s.mSilenceDuration := by
  cases e with
  | startRecord acquire silenceSrc waveSrc =>
    cases acquire with
    | error err => exact ⟨rfl, rfl⟩
    | ok u =>
      cases u
      simp only [step, StartRecord_ok]
      obtain ⟨-, -, -, -, -, h1, h2, -⟩ := drawWave_fields waveSrc
        (checkSilence 256 silenceSrc (sessionSetup s))
      obtain ⟨-, -, -, -, -, h3, h4, -⟩ := checkSilence_fields 256 silenceSrc (sessionSetup s)
      exact ⟨by rw [h1, h3]; rfl, by rw [h2, h4]; rfl⟩
  | frame cb src =>
    simp only [step, frameRuns]
    split
    · cases cb with
      | checkSilence n =>
        obtain ⟨-, -, -, -, -, h3, h4, -⟩ :=
          checkSilence_fields n src { s with frames := s.frames.erase (.checkSilence n) }
        exact ⟨h3, h4⟩
      | drawWave =>
        obtain ⟨-, -, -, -, -, h1, h2, -⟩ :=
          drawWave_fields src { s with frames := s.frames.erase .drawWave }
        exact ⟨h1, h2⟩
    · exact ⟨rfl, rfl⟩
  | timeout id =>
    simp only [step]
    rcases timerFires_eq id s with h | ⟨-, h⟩ <;> rw [h]
    · exact ⟨rfl, rfl⟩
    · obtain ⟨-, -, -, -, -, h1, h2, -⟩ :=
        stopRecording_fields { s with timers := s.timers.filter (fun u => u.1 != id) }
      exact ⟨h1, h2⟩
  | stop =>
    obtain ⟨-, -, -, -, -, h1, h2, -⟩ := stopRecording_fields s
    exact ⟨h1, h2⟩
  | recorderStopped =>
    simp only [step]
    rcases stopListener_eq s with h | h <;> rw [h] <;> exact ⟨rfl, rfl⟩
  | hostAnswered =>
    simp only [step]
    rcases stopListenerResume_eq s with h | h <;> rw [h] <;> exact ⟨rfl, rfl⟩
  | recorderEnds tracksEnded =>
    simp only [step]
    rcases recorderEnds_eq tracksEnded s with h | ⟨l, h⟩ <;> rw [h] <;> exact ⟨rfl, rfl⟩
  | advance dt => exact ⟨rfl, rfl⟩

theorem run_config (es : List Event) (s : State) :
    (run s es).mSilenceThreshold = s.mSilenceThreshold ∧
    (run s es).mSilenceDuration = s.mSilenceDuration := by
  induction es generalizing s with
  | nil => exact ⟨rfl, rfl⟩
  | cons e es ih =>
    obtain ⟨h1, h2⟩ := ih (step s e)
    obtain ⟨h3, h4⟩ := step_config s e
    exact ⟨h1.trans h3, h2.trans h4⟩

/-- A tick that is not silent leaves the handle empty when it was empty. -/
theorem checkSilence_handle_none (n : Nat) (src : List Nat) (s : State)
    (hh : s.mSilenceTimeout = none)
    (hq : silenceTest s.mSilenceThreshold (readBytes n src) ≠ some true) :
    (checkSilence n src s).mSilenceTimeout = none := by
  rcases checkSilence_cases n src s with h | ⟨h, -⟩ | ⟨h, -⟩ | h
  · rw [checkSilence_of_none _ _ _ h]; exact hh
  · exact absurd h hq
  · exact absurd h hq
  · rw [checkSilence_clear _ _ _ h]

theorem step_handle_none (s : State) (e : Event) (hh : s.mSilenceTimeout = none)
    (hq : e.silentTick s.mSilenceThreshold = false) : (step s e).mSilenceTimeout = none := by
  cases e with
  | startRecord acquire silenceSrc waveSrc =>
    cases acquire with
    | error err => exact hh
    | ok u =>
      cases u
      simp only [step, StartRecord_ok]
      rw [(drawWave_fields waveSrc _).2.2.2.2.2.2.2.1]
      apply checkSilence_handle_none
      · simpa [sessionSetup] using hh
      · simpa [Event.silentTick, sessionSetup] using hq
  | frame cb src =>
    simp only [step, frameRuns]
    split
    · cases cb with
      | checkSilence n =>
        apply checkSilence_handle_none
        · exact hh
        · simpa [Event.silentTick] using hq
      | drawWave =>
        rw [(drawWave_fields src _).2.2.2.2.2.2.2.1]; exact hh
    · exact hh
  | timeout id =>
    simp only [step]
    rcases timerFires_eq id s with h | ⟨-, h⟩ <;> rw [h]
    · exact hh
    · rw [(stopRecording_fields _).2.2.1]; exact hh
  | stop => rw [step, (stopRecording_fields _).2.2.1]; exact hh
  | recorderStopped =>
    simp only [step]
    rcases stopListener_eq s with h | h <;> rw [h] <;> exact hh
  | hostAnswered =>
    simp only [step]
    rcases stopListenerResume_eq s with h | h <;> rw [h] <;> exact hh
  | recorderEnds tracksEnded =>
    simp only [step]
    rcases recorderEnds_eq tracksEnded s with h | ⟨l, h⟩ <;> rw [h] <;> exact hh
  | advance dt => exact hh

theorem run_handle_none (es : List Event) (s : State) (hh : s.mSilenceTimeout = none)
    (hq : ∀ e ∈ es, e.silentTick s.mSilenceThreshold = false) :
    (run s es).mSilenceTimeout = none := by
  induction es generalizing s with
  | nil => exact hh
  | cons e es ih =>
    refine ih (step s e) (step_handle_none s e hh (hq e (by simp))) (fun f hf => ?_)
    rw [(step_config s e).1]
    exact hq f (by simp [hf])

theorem reachable_firstTick : Reachable firstTick :=
  ⟨1500, 1 / 10, 300, 150, [.startRecord (.ok ()) [] []], rfl⟩

/-- C9. In every reachable state at most one silence timer is pending and every
pending timer is the one whose id is stored in `mSilenceTimeout`; a `checkSilence`
tick arms a timer only when the handle is empty and nothing is pending, and whenever
a task empties the handle no timer is pending afterwards. -/
theorem at_most_one_pending_timer (s : State) (hs : Reachable s) :
    s.timers.length ≤ 1 ∧
    (∀ t ∈ s.timers, s.mSilenceTimeout = some t.1) ∧
    (∀ n src, s.timers.length < (checkSilence n src s).timers.length →
      truthy s.mSilenceTimeout = false ∧ s.timers = []) ∧
    (∀ e, (step s e).mSilenceTimeout = none → (step s e).timers = []) := by
  have hinv := TimerInv_reachable s hs
  refine ⟨hinv.2, fun t ht => (hinv.1 t ht).1, fun n src hlt => ?_, fun e he => ?_⟩
  · rcases checkSilence_cases n src s with h | ⟨h, hh⟩ | ⟨h, hh⟩ | h
    · rw [checkSilence_of_none _ _ _ h] at hlt; omega
    · exact ⟨hh, timers_nil_of_falsy s hinv hh⟩
    · rw [checkSilence_keep _ _ _ h hh] at hlt; simp at hlt
    · rw [checkSilence_clear _ _ _ h] at hlt
      have := (clearTimeout_sublist s.mSilenceTimeout s.timers).length_le
      simp only at hlt
      omega
  · exact timers_nil_of_falsy _ (TimerInv_step s e hinv) (by simp [truthy, he])

/-- C9, at the state right after a first successful `StartRecord`. -/
theorem at_most_one_pending_timer_witness :
    Reachable firstTick ∧ firstTick.timers.length ≤ 1 ∧
    (∀ t ∈ firstTick.timers, firstTick.mSilenceTimeout = some t.1) :=
  ⟨reachable_firstTick,
    (at_most_one_pending_timer firstTick reachable_firstTick).1,
    (at_most_one_pending_timer firstTick reachable_firstTick).2.1⟩

/-- C8. Every buffer a `checkSilence` closure reads has 256 bytes, in every reachable
state and for the tick run by `detectSilence` itself, so the average is defined; and
for every non-empty buffer and threshold the tick is classified silent if and only if
the arithmetic mean of the samples divided by 255 is strictly below the threshold, a
mean equal to the threshold being classified as not silent. -/
theorem silence_decision :
    (∀ s, Reachable s → ∀ n, Callback.checkSilence n ∈ s.frames → n = 256) ∧
    (∀ s, Reachable s → ∀ src, detectSilence src s = s ∨ detectSilence src s = checkSilence 256 src s) ∧
    (∀ src, (readBytes 256 src).length = 256 ∧ (∀ v ∈ readBytes 256 src, v < 256) ∧
      ∀ threshold, silenceTest threshold (readBytes 256 src) ≠ none) ∧
    (∀ (threshold : ℚ) (buffer : List Nat), buffer ≠ [] →
      (silenceTest threshold buffer = some true ↔
        ((buffer.sum : ℚ) / buffer.length) / 255 < threshold) ∧
      (silenceTest threshold buffer = some false ↔
        ¬ ((buffer.sum : ℚ) / buffer.length) / 255 < threshold) ∧
      (((buffer.sum : ℚ) / buffer.length) / 255 = threshold →
        silenceTest threshold buffer = some false)) := by
  refine ⟨fun s hs => (BufferInv_reachable s hs).1, fun s hs src => ?_, fun src => ?_,
    fun threshold buffer hne => ?_⟩
  · cases ha : s.mAnalyzer with
    | none => left; simp [detectSilence, ha]
    | some n =>
      right
      have := (BufferInv_reachable s hs).2 n ha
      subst this
      simp [detectSilence, ha]
  · refine ⟨readBytes_length 256 src, readBytes_lt 256 src, fun threshold => ?_⟩
    rw [silenceTest_eq _ _ (readBytes_ne_nil 256 src (by norm_num))]
    simp
  · have key : ((buffer.sum : ℚ) / buffer.length < threshold * 255) ↔
        ((buffer.sum : ℚ) / buffer.length) / 255 < threshold := by
      rw [div_lt_iff₀ (by norm_num : (0 : ℚ) < 255)]
    rw [silenceTest_eq threshold buffer hne]
    refine ⟨?_, ?_, fun heq => ?_⟩
    · rw [Option.some.injEq, decide_eq_true_iff]; exact key
    · rw [Option.some.injEq, decide_eq_false_iff_not]; exact not_congr key
    · rw [Option.some.injEq, decide_eq_false_iff_not, key, heq]; exact lt_irrefl _

/-- C8, at the buffer `[0, 51]` whose mean over 255 is exactly the threshold 0.1: the
tick is classified as not silent. -/
theorem silence_decision_witness : silenceTest (1 / 10) [0, 51] = some false :=
  (silence_decision.2.2.2 (1 / 10) [0, 51] (by simp)).2.2 (by norm_num)

/-! ## Amplitude recovery -/

theorem timerFires_too_early (id due : Nat) (s : State) (ht : s.timers = [(id, due)])
    (hnow : s.now < due) : timerFires id s = s := by
  simp [timerFires, ht, Nat.not_le.mpr hnow]

theorem timerFires_when_due (id due : Nat) (s : State) (ht : s.timers = [(id, due)])
    (hnow : due ≤ s.now) : timerFires id s = stopRecording { s with timers := [] } := by
  simp [timerFires, ht, hnow]

/-- C3. A `checkSilence` tick that is not silent cancels the timer of the handle and
empties the handle, in every state; the next silent tick, whatever happens in between,
then arms a fresh timer due exactly `mSilenceDuration` after that tick.  When every
pending timer is the handle's (as in all reachable states), nothing is pending after
the recovery, the fresh timer is the only one pending, it cannot fire earlier than its
due time and it runs `stopRecording` when due. -/
theorem recovery_resets_countdown (s : State) (n : Nat) (src : List Nat)
    (hloud : silenceTest s.mSilenceThreshold (readBytes n src) = some false) :
    (checkSilence n src s).mSilenceTimeout = none ∧
    (checkSilence n src s).timers = clearTimeout s.mSilenceTimeout s.timers ∧
    (∀ id, s.mSilenceTimeout = some id → ∀ t ∈ (checkSilence n src s).timers, t.1 ≠ id) ∧
    (TimerInv s → (checkSilence n src s).timers = []) ∧
    ∀ (es : List Event) (m : Nat) (src' : List Nat),
      (∀ e ∈ es, e.silentTick s.mSilenceThreshold = false) →
      silenceTest s.mSilenceThreshold (readBytes m src') = some true →
      (checkSilence m src' (run (checkSilence n src s) es)).mSilenceTimeout =
        some ((run (checkSilence n src s) es).nextTimer + 1) ∧
      ((run (checkSilence n src s) es).nextTimer + 1,
        (run (checkSilence n src s) es).now + s.mSilenceDuration) ∈
          (checkSilence m src' (run (checkSilence n src s) es)).timers ∧
      (TimerInv s →
        (checkSilence m src' (run (checkSilence n src s) es)).timers =
          [((run (checkSilence n src s) es).nextTimer + 1,
            (run (checkSilence n src s) es).now + s.mSilenceDuration)] ∧
        (∀ dt, dt < s.mSilenceDuration →
          timerFires ((run (checkSilence n src s) es).nextTimer + 1)
              (step (checkSilence m src' (run (checkSilence n src s) es)) (.advance dt)) =
            step (checkSilence m src' (run (checkSilence n src s) es)) (.advance dt)) ∧
        (∀ dt, s.mSilenceDuration ≤ dt →
          timerFires ((run (checkSilence n src s) es).nextTimer + 1)
              (step (checkSilence m src' (run (checkSilence n src s) es)) (.advance dt)) =
            stopRecording
              { step (checkSilence m src' (run (checkSilence n src s) es)) (.advance dt) with
                timers := [] })) := by
  have h1 := checkSilence_clear n src s hloud
  have hthr1 : (checkSilence n src s).mSilenceThreshold = s.mSilenceThreshold := by rw [h1]
  have hdur1 : (checkSilence n src s).mSilenceDuration = s.mSilenceDuration := by rw [h1]
  have hnone1 : (checkSilence n src s).mSilenceTimeout = none := by rw [h1]
  have htim1 : (checkSilence n src s).timers = clearTimeout s.mSilenceTimeout s.timers := by
    rw [h1]
  refine ⟨hnone1, htim1, fun id hid t ht => ?_, fun hinv => ?_, fun es m src' hq hsil => ?_⟩
  · rw [htim1, hid] at ht
    simpa [clearTimeout] using (List.mem_filter.mp ht).2
  · rw [htim1]; exact clearTimeout_handle_nil s hinv
  · have hcfg := run_config es (checkSilence n src s)
    have hnone2 : (run (checkSilence n src s) es).mSilenceTimeout = none :=
      run_handle_none es _ hnone1 (fun e he => by rw [hthr1]; exact hq e he)
    have hsil2 : silenceTest (run (checkSilence n src s) es).mSilenceThreshold
        (readBytes m src') = some true := by rw [hcfg.1, hthr1]; exact hsil
    have h3 := checkSilence_arm m src' (run (checkSilence n src s) es) hsil2
      (by simp [truthy, hnone2])
    have hdur : (run (checkSilence n src s) es).mSilenceDuration = s.mSilenceDuration := by
      rw [hcfg.2, hdur1]
    refine ⟨by rw [h3], by rw [h3, hdur]; simp, fun hinv => ?_⟩
    have hinv1 : TimerInv (checkSilence n src s) := TimerInv_checkSilence n src s hinv
    have hinv2 : TimerInv (run (checkSilence n src s) es) := TimerInv_run _ es hinv1
    have hnil : (run (checkSilence n src s) es).timers = [] :=
      timers_nil_of_falsy _ hinv2 (by simp [truthy, hnone2])
    have htim3 : (checkSilence m src' (run (checkSilence n src s) es)).timers =
        [((run (checkSilence n src s) es).nextTimer + 1,
          (run (checkSilence n src s) es).now + s.mSilenceDuration)] := by
      rw [h3, hdur]; simp [hnil]
    have hnow3 : (checkSilence m src' (run (checkSilence n src s) es)).now =
        (run (checkSilence n src s) es).now := (checkSilence_fields _ _ _).2.2.2.2.1
    refine ⟨htim3, fun dt hdt => ?_, fun dt hdt => ?_⟩
    · apply timerFires_too_early _ _ _ (by simpa [step] using htim3)
      simp only [step, hnow3]
      omega
    · rw [timerFires_when_due _ _ _ (by simpa [step] using htim3)]
      simp only [step, hnow3]
      omega

/-- C5. When `getUserMedia` fails, `StartRecord` fails with that error and leaves the
whole state as it was, performing no effect: `mIsRecording` stays false, the indicator
is not raised, no recorder is started.  From a freshly loaded module nothing happens
afterwards either, whatever tasks run short of a successful `StartRecord`: no effect is
ever performed, so `OnAudioUrl` is never invoked. -/
theorem failed_start_is_atomic (err : String) (silenceSrc waveSrc : List Nat) :
    (∀ s : State,
      (StartRecord (.error err) silenceSrc waveSrc s).1 = .error err ∧
      (StartRecord (.error err) silenceSrc waveSrc s).2 = s ∧
      effectsSince s (StartRecord (.error err) silenceSrc waveSrc s).2 = [] ∧
      (s.mIsRecording = false →
        (StartRecord (.error err) silenceSrc waveSrc s).2.mIsRecording = false)) ∧
    (∀ (duration : Nat) (threshold W H : ℚ) (es : List Event),
      (∀ e ∈ es, e.isStart = false) →
      (run (StartRecord (.error err) silenceSrc waveSrc (initial duration threshold W H)).2
          es).log = [] ∧
      (run (StartRecord (.error err) silenceSrc waveSrc (initial duration threshold W H)).2
          es).mIsRecording = false ∧
      (run (StartRecord (.error err) silenceSrc waveSrc (initial duration threshold W H)).2
          es).indicator = false ∧
      (run (StartRecord (.error err) silenceSrc waveSrc (initial duration threshold W H)).2
          es).mMediaRecorder = none) := by
  refine ⟨fun s => ⟨rfl, rfl, by simp [effectsSince, StartRecord], fun h => h⟩,
    fun duration threshold W H es hes => ?_⟩
  have key : ∀ (es : List Event) (s : State), (∀ e ∈ es, e.isStart = false) →
      (s.log = [] ∧ s.mIsRecording = false ∧ s.indicator = false ∧ s.mMediaRecorder = none ∧
        s.frames = [] ∧ s.timers = [] ∧ s.stopEvents = 0 ∧ s.awaitingHost = 0) →
      (run s es).log = [] ∧ (run s es).mIsRecording = false ∧ (run s es).indicator = false ∧
        (run s es).mMediaRecorder = none := by
    intro es
    induction es with
    | nil => intro s _ hs; exact ⟨hs.1, hs.2.1, hs.2.2.1, hs.2.2.2.1⟩
    | cons e es ih =>
      intro s hes hs
      obtain ⟨h1, h2, h3, h4, h5, h6, h7, h8⟩ := hs
      have hstep : step s e = s ∨ ∃ dt, step s e = { s with now := s.now + dt } := by
        cases e with
        | startRecord acquire a b =>
          cases acquire with
          | error x => left; rfl
          | ok u => simpa [Event.isStart] using hes (.startRecord (.ok u) a b) (by simp)
        | frame cb src => left; simp [step, frameRuns, h5]
        | timeout id => left; simp [step, timerFires, h6]
        | stop => left; simp [step, stopRecording, stopGuard, h4]
        | recorderStopped => left; simp [step, stopListener, h7]
        | hostAnswered => left; simp [step, stopListenerResume, h8]
        | recorderEnds tracksEnded => left; simp [step, recorderEnds, h4]
        | advance dt => right; exact ⟨dt, rfl⟩
      have hes' : ∀ f ∈ es, f.isStart = false := fun f hf => hes f (by simp [hf])
      rcases hstep with h | ⟨dt, h⟩
      · rw [run_cons, h]; exact ih s hes' ⟨h1, h2, h3, h4, h5, h6, h7, h8⟩
      · rw [run_cons, h]; exact ih _ hes' ⟨h1, h2, h3, h4, h5, h6, h7, h8⟩
  exact key es _ hes (by simp [StartRecord, initial])

/-! ## Concrete inputs -/

theorem readBytes_replicate (n v : Nat) (hv : v < 256) :
    readBytes n (List.replicate n v) = List.replicate n v := by
  unfold readBytes
  apply List.ext_getElem
  · simp
  · intro i h1 h2
    have hi : i < n := by simpa using h1
    simp [List.getD_eq_getElem?_getD, List.getElem?_replicate, hi, Nat.mod_eq_of_lt hv]

theorem silenceTest_silent_input (threshold : ℚ) (n : Nat) (hn : 0 < n) (ht : 0 < threshold) :
    silenceTest threshold (readBytes n []) = some true := by
  rw [silenceTest_eq _ _ (readBytes_ne_nil n [] hn)]
  have hsum : (readBytes n []).sum = 0 := by
    apply List.sum_eq_zero
    intro v hv
    simp only [readBytes, List.mem_map] at hv
    obtain ⟨i, -, rfl⟩ := hv
    simp
  rw [hsum]
  simp
  positivity

theorem silenceTest_loud_input (threshold : ℚ) (ht : threshold ≤ 1) :
    silenceTest threshold (readBytes 256 loudInput) = some false := by
  rw [silenceTest_eq _ _ (readBytes_ne_nil 256 _ (by norm_num)), loudInput,
    readBytes_replicate 256 255 (by norm_num)]
  simp only [List.sum_replicate, List.length_replicate, smul_eq_mul, Option.some.injEq,
    decide_eq_false_iff_not, not_lt]
  norm_num
  linarith

/-- C3, at a recording state with the silence timer pending: a tick at full scale
empties the handle and leaves no timer pending. -/
theorem recovery_resets_countdown_witness :
    silenceTest midSession.mSilenceThreshold (readBytes 256 loudInput) = some false ∧
    (checkSilence 256 loudInput midSession).mSilenceTimeout = none ∧
    (checkSilence 256 loudInput midSession).timers =
      clearTimeout midSession.mSilenceTimeout midSession.timers :=
  ⟨silenceTest_loud_input _ (by norm_num [midSession]),
    (recovery_resets_countdown midSession 256 loudInput
      (silenceTest_loud_input _ (by norm_num [midSession]))).1,
    (recovery_resets_countdown midSession 256 loudInput
      (silenceTest_loud_input _ (by norm_num [midSession]))).2.1⟩

/-- C5, for a denied microphone on a freshly loaded module followed by stray tasks. -/
theorem failed_start_is_atomic_witness :
    (run (StartRecord (.error "NotAllowedError") [] [] (initial 1500 (1 / 10) 300 150)).2
        [.frame .drawWave [], .timeout 1, .stop, .recorderStopped, .advance 10]).log = [] ∧
    (run (StartRecord (.error "NotAllowedError") [] [] (initial 1500 (1 / 10) 300 150)).2
        [.frame .drawWave [], .timeout 1, .stop, .recorderStopped, .advance 10]).mIsRecording
      = false :=
  ⟨((failed_start_is_atomic "NotAllowedError" [] []).2 1500 (1 / 10) 300 150
      [.frame .drawWave [], .timeout 1, .stop, .recorderStopped, .advance 10]
      (by simp [Event.isStart])).1,
   ((failed_start_is_atomic "NotAllowedError" [] []).2 1500 (1 / 10) 300 150
      [.frame .drawWave [], .timeout 1, .stop, .recorderStopped, .advance 10]
      (by simp [Event.isStart])).2.1⟩

/-! ## Waveform -/

theorem waveLoop_points (sliceWidth H : ℚ) (data : List Nat) :
    ∀ (k i : Nat) (x : ℚ),
      (waveLoop sliceWidth H data k i x).filterMap CanvasOp.point =
        (List.range k).map
          (fun (j : Nat) =>
            (x + (j : ℚ) * sliceWidth, (data.getD (i + j) 0 : ℚ) / 128 * H / 2)) := by
  intro k
  induction k with
  | zero => intro i x; simp [waveLoop]
  | succ k ih =>
    intro i x
    rw [waveLoop, List.range_succ_eq_map, List.filterMap_cons, ih]
    have hhead : CanvasOp.point
        (if i = 0 then CanvasOp.moveTo x ((data.getD i 0 : ℚ) / 128 * H / 2)
          else CanvasOp.lineTo x ((data.getD i 0 : ℚ) / 128 * H / 2)) =
        some (x, (data.getD i 0 : ℚ) / 128 * H / 2) := by
      split <;> rfl
    rw [hhead]
    simp only [List.map_cons, List.map_map, Nat.cast_zero, zero_mul, add_zero, Nat.add_zero]
    congr 1
    apply List.map_congr_left
    intro j _
    simp only [Function.comp, Nat.cast_succ]
    rw [show i + 1 + j = i + j.succ from by omega]
    congr 1
    ring

theorem wavePoints_eq (W H : ℚ) (N : Nat) (data : List Nat) (hN : 0 < N) :
    wavePoints W H N data = (List.range N).map (specPoint W H N data) ++ [(W, H / 2)] := by
  have hN' : (N : ℚ) ≠ 0 := by exact_mod_cast hN.ne'
  simp only [wavePoints, wavePath, List.filterMap_append, waveLoop_points]
  simp only [List.filterMap_cons, List.filterMap_nil, CanvasOp.point, List.nil_append]
  congr 1
  apply List.map_congr_left
  intro j _
  simp only [specPoint, Nat.zero_add, zero_add]
  congr 1
  field_simp

/-- C6. For every buffer length `N > 0`, surface `(W, H)` and data array of `N`
samples, `drawWave` draws `N + 1` points: the `i`-th is `(i*W/N, (s_i/128)*H/2)` and
the closing one is `(W, H/2)`; the first has `x = 0`; and when every sample is 128
every point has `y = H/2`, so the path runs level from `x = 0` to `x = W`. -/
theorem waveform_mapping (W H : ℚ) (N : Nat) (hN : 0 < N) (data : List Nat)
    (hlen : data.length = N) :
    (wavePoints W H N data).length = N + 1 ∧
    (∀ i, i < N →
      (wavePoints W H N data)[i]? =
        some ((i : ℚ) * W / N, ((data.getD i 0 : ℚ) / 128) * H / 2)) ∧
    (wavePoints W H N data)[N]? = some (W, H / 2) ∧
    ((wavePoints W H N data).head?.map Prod.fst = some 0) ∧
    ((wavePoints W H N data).getLast?.map Prod.fst = some W) ∧
    ((∀ v ∈ data, v = 128) → ∀ p ∈ wavePoints W H N data, p.2 = H / 2) := by
  rw [wavePoints_eq W H N data hN]
  refine ⟨by simp, fun i hi => ?_, ?_, ?_, by simp, fun hall p hp => ?_⟩
  · rw [List.getElem?_append_left (by simpa using hi)]
    simp [hi, specPoint]
  · rw [List.getElem?_append_right (by simp)]
    simp
  · obtain ⟨k, rfl⟩ : ∃ k, N = k + 1 := ⟨N - 1, by omega⟩
    simp [List.range_succ_eq_map, specPoint]
  · rcases List.mem_append.mp hp with h | h
    · obtain ⟨i, hi, rfl⟩ := List.mem_map.mp h
      have hi' : i < data.length := by rw [hlen]; simpa using hi
      have h128 : data.getD i 0 = 128 := by
        rw [List.getD_eq_getElem _ _ hi']
        exact hall _ (List.getElem_mem hi')
      simp only [specPoint, h128]
      norm_num
    · simp only [List.mem_singleton] at h
      rw [h]

/-- C6, for two midline samples on a surface 300 by 150. -/
theorem waveform_mapping_witness :
    (wavePoints 300 150 2 [128, 128]).length = 2 + 1 ∧
    (wavePoints 300 150 2 [128, 128])[2]? = some (300, 150 / 2) ∧
    ∀ p ∈ wavePoints 300 150 2 [128, 128], p.2 = 150 / 2 :=
  ⟨(waveform_mapping 300 150 2 (by decide) [128, 128] rfl).1,
   (waveform_mapping 300 150 2 (by decide) [128, 128] rfl).2.2.1,
   (waveform_mapping 300 150 2 (by decide) [128, 128] rfl).2.2.2.2.2 (by simp)⟩

/-! ## The waveform loop within a session -/

theorem stopRecording_mIsRecording (s : State) :
    (stopGuard s = true → (stopRecording s).mIsRecording = false) ∧
    (s.mIsRecording = false → (stopRecording s).mIsRecording = false) := by
  constructor
  · intro hg
    cases hst : s.mStream with
    | none => rw [stopRecording_eq_of_no_stream s hg hst]
    | some st => rw [stopRecording_eq s st hg hst]
  · intro h
    rw [stopRecording_of_not_guard s (by cases hr : s.mMediaRecorder <;> simp [stopGuard, hr, h])]
    exact h

theorem WaveInv_of_fields (s t : State) (hs : WaveInv s) (hr : t.mIsRecording = s.mIsRecording)
    (hc : t.frames.count .drawWave = s.frames.count .drawWave) : WaveInv t := by
  unfold WaveInv
  rw [hr, hc]
  exact hs

theorem WaveInv_checkSilence (n : Nat) (src : List Nat) (s : State) (hs : WaveInv s) :
    WaveInv (checkSilence n src s) := by
  obtain ⟨hr, -, -, -, -, -, -, -, hf⟩ := checkSilence_fields n src s
  refine WaveInv_of_fields s _ hs hr ?_
  rcases hf with hf | hf <;> rw [hf]
  simp

theorem WaveInv_stopRecording (s : State) (hs : WaveInv s) : WaveInv (stopRecording s) := by
  by_cases hg : stopGuard s = true
  · have hrec : s.mIsRecording = true := by
      cases hr : s.mMediaRecorder <;> simp [stopGuard, hr] at hg
      exact hg.1
    have hcount := hs.1 hrec
    have hf := (stopRecording_fields s).1
    refine ⟨fun h => ?_, fun _ => by rw [hf, hcount]⟩
    rw [(stopRecording_mIsRecording s).1 hg] at h
    cases h
  · rw [stopRecording_of_not_guard s (by simpa using hg)]; exact hs

theorem WaveInv_drawFrame (src : List Nat) (s : State) (hs : WaveInv s) :
    WaveInv (drawWave src { s with frames := s.frames.erase .drawWave }) := by
  by_cases hrec : s.mIsRecording = true
  · rw [drawWave_of_recording src { s with frames := s.frames.erase .drawWave } hrec]
    have hc := hs.1 hrec
    refine ⟨fun _ => ?_, fun h => by simp [hrec] at h⟩
    simp only [List.count_append, List.count_erase_self, hc]
    simp
  · have hrec' : s.mIsRecording = false := by simpa using hrec
    rw [drawWave_of_not_recording src { s with frames := s.frames.erase .drawWave } hrec']
    refine ⟨fun h => by simp [hrec'] at h, fun _ => ?_⟩
    have := hs.2 hrec'
    simp only [List.count_erase_self]
    omega

theorem WaveInv_step (s : State) (e : Event) (he : e.isStart = false) (hs : WaveInv s) :
    WaveInv (step s e) := by
  cases e with
  | startRecord acquire silenceSrc waveSrc =>
    cases acquire with
    | error err => exact hs
    | ok u => simp [Event.isStart] at he
  | frame cb src =>
    simp only [step, frameRuns]
    split
    · cases cb with
      | checkSilence n =>
        apply WaveInv_checkSilence
        exact WaveInv_of_fields s _ hs rfl (List.count_erase_of_ne (by simp) s.frames)
      | drawWave => exact WaveInv_drawFrame src s hs
    · exact hs
  | timeout id =>
    simp only [step]
    rcases timerFires_eq id s with h | ⟨-, h⟩ <;> rw [h]
    · exact hs
    · exact WaveInv_stopRecording _ (WaveInv_of_fields s _ hs rfl rfl)
  | stop => exact WaveInv_stopRecording s hs
  | recorderStopped =>
    simp only [step]
    rcases stopListener_eq s with h | h <;> rw [h]
    · exact hs
    · exact WaveInv_of_fields s _ hs rfl rfl
  | hostAnswered =>
    simp only [step]
    rcases stopListenerResume_eq s with h | h <;> rw [h]
    · exact hs
    · exact WaveInv_of_fields s _ hs rfl rfl
  | recorderEnds tracksEnded =>
    simp only [step]
    rcases recorderEnds_eq tracksEnded s with h | ⟨l, h⟩ <;> rw [h]
    · exact hs
    · exact WaveInv_of_fields s _ hs rfl rfl
  | advance dt => exact WaveInv_of_fields s _ hs rfl rfl

theorem step_not_recording (s : State) (e : Event) (he : e.isStart = false)
    (hs : s.mIsRecording = false) : (step s e).mIsRecording = false := by
  cases e with
  | startRecord acquire silenceSrc waveSrc =>
    cases acquire with
    | error err => exact hs
    | ok u => simp [Event.isStart] at he
  | frame cb src =>
    simp only [step, frameRuns]
    split
    · cases cb with
      | checkSilence n => rw [(checkSilence_fields _ _ _).1]; exact hs
      | drawWave => rw [(drawWave_fields _ _).1]; exact hs
    · exact hs
  | timeout id =>
    simp only [step]
    rcases timerFires_eq id s with h | ⟨-, h⟩ <;> rw [h]
    · exact hs
    · exact (stopRecording_mIsRecording _).2 hs
  | stop => exact (stopRecording_mIsRecording s).2 hs
  | recorderStopped =>
    simp only [step]
    rcases stopListener_eq s with h | h <;> rw [h] <;> exact hs
  | hostAnswered =>
    simp only [step]
    rcases stopListenerResume_eq s with h | h <;> rw [h] <;> exact hs
  | recorderEnds tracksEnded =>
    simp only [step]
    rcases recorderEnds_eq tracksEnded s with h | ⟨l, h⟩ <;> rw [h] <;> exact hs
  | advance dt => exact hs

theorem WaveInv_run (es : List Event) (s : State) (hes : ∀ e ∈ es, e.isStart = false)
    (hs : WaveInv s) : WaveInv (run s es) := by
  induction es generalizing s with
  | nil => exact hs
  | cons e es ih =>
    exact ih (step s e) (fun f hf => hes f (by simp [hf]))
      (WaveInv_step s e (hes e (by simp)) hs)

theorem run_not_recording (es : List Event) (s : State) (hes : ∀ e ∈ es, e.isStart = false)
    (hs : s.mIsRecording = false) : (run s es).mIsRecording = false := by
  induction es generalizing s with
  | nil => exact hs
  | cons e es ih =>
    exact ih (step s e) (fun f hf => hes f (by simp [hf]))
      (step_not_recording s e (hes e (by simp)) hs)

theorem WaveInv_start (silenceSrc waveSrc : List Nat) (s : State) (hs : Idle s) :
    WaveInv (StartRecord (.ok ()) silenceSrc waveSrc s).2 := by
  rw [StartRecord_ok]
  obtain ⟨hr, -, -, -, -, -, -, -, hf⟩ := checkSilence_fields 256 silenceSrc (sessionSetup s)
  have hrec : (checkSilence 256 silenceSrc (sessionSetup s)).mIsRecording = true := hr
  have hcount : (checkSilence 256 silenceSrc (sessionSetup s)).frames.count .drawWave = 0 := by
    have h0 : s.frames.count .drawWave = 0 := List.count_eq_zero.mpr hs.2
    rcases hf with hf | hf <;> rw [hf] <;> simp [sessionSetup, h0]
  rw [drawWave_of_recording _ _ hrec]
  refine ⟨fun _ => ?_, fun h => by simp [hrec] at h⟩
  simp [hcount]

theorem drawFrame_after_stop (src : List Nat) (u : State) (hu : WaveInv u)
    (hrec : u.mIsRecording = false) :
    (frameRuns .drawWave src u).frames.count .drawWave = 0 := by
  have hle := hu.2 hrec
  unfold frameRuns
  split
  · rw [drawWave_of_not_recording src { u with frames := u.frames.erase .drawWave } hrec]
    simp only [List.count_erase_self]
    omega
  · rename_i hmem
    exact List.count_eq_zero.mpr hmem

/-! ## A recorder stopped by the platform -/

theorem stopGuard_of_stuck (s : State) (hs : Stuck s) : stopGuard s = false := by
  simp [stopGuard, hs.2]

theorem Stuck_of_fields (s t : State) (hs : Stuck s) (hr : t.mIsRecording = s.mIsRecording)
    (hm : t.mMediaRecorder = s.mMediaRecorder) : Stuck t :=
  ⟨hr.trans hs.1, hm.trans hs.2⟩

theorem Stuck_step (s : State) (e : Event) (he : e.isStart = false) (hs : Stuck s) :
    Stuck (step s e) := by
  cases e with
  | startRecord acquire silenceSrc waveSrc =>
    cases acquire with
    | error err => exact hs
    | ok u => simp [Event.isStart] at he
  | frame cb src =>
    simp only [step, frameRuns]
    split
    · cases cb with
      | checkSilence n =>
        obtain ⟨h1, h2, -⟩ :=
          checkSilence_fields n src { s with frames := s.frames.erase (.checkSilence n) }
        exact Stuck_of_fields s _ hs h1 h2
      | drawWave =>
        obtain ⟨h1, h2, -⟩ := drawWave_fields src { s with frames := s.frames.erase .drawWave }
        exact Stuck_of_fields s _ hs h1 h2
    · exact hs
  | timeout id =>
    simp only [step]
    rcases timerFires_eq id s with h | ⟨-, h⟩ <;> rw [h]
    · exact hs
    · rw [stopRecording_of_not_guard _
        (stopGuard_of_stuck { s with timers := s.timers.filter (fun u => u.1 != id) }
          ⟨hs.1, hs.2⟩)]
      exact ⟨hs.1, hs.2⟩
  | stop =>
    simp only [step]
    rw [stopRecording_of_not_guard s (stopGuard_of_stuck s hs)]
    exact hs
  | recorderStopped =>
    simp only [step]
    rcases stopListener_eq s with h | h <;> rw [h] <;> exact ⟨hs.1, hs.2⟩
  | hostAnswered =>
    simp only [step]
    rcases stopListenerResume_eq s with h | h <;> rw [h] <;> exact ⟨hs.1, hs.2⟩
  | recorderEnds tracksEnded =>
    simp only [step]
    rcases recorderEnds_eq tracksEnded s with h | ⟨l, h⟩ <;> rw [h]
    · exact hs
    · exact ⟨hs.1, rfl⟩
  | advance dt => exact ⟨hs.1, hs.2⟩

theorem Stuck_run (es : List Event) (s : State) (hes : ∀ e ∈ es, e.isStart = false)
    (hs : Stuck s) : Stuck (run s es) := by
  induction es generalizing s with
  | nil => exact hs
  | cons e es ih =>
    exact ih (step s e) (fun f hf => hes f (by simp [hf]))
      (Stuck_step s e (hes e (by simp)) hs)

theorem silentTest_loaded : silenceTest (1 / 10) (readBytes 256 []) = some true :=
  silenceTest_silent_input _ _ (by norm_num) (by norm_num)

theorem loudTest_loaded : silenceTest (1 / 10) (readBytes 256 loudInput) = some false :=
  silenceTest_loud_input _ (by norm_num)

set_option maxRecDepth 8000 in
/-- The module after the session whose recorder the platform stopped: the silence
timer has fired and a `drawWave` frame has run since, yet `mIsRecording` is true, the
tracks are live, the audio context is open and a `drawWave` frame is scheduled. -/
theorem afterFault_fields :
    afterFault.mIsRecording = true ∧
    afterFault.mMediaRecorder = some .inactive ∧
    afterFault.timers = [] ∧
    afterFault.liveStreams = [1] ∧
    afterFault.mAudioContext = true ∧
    afterFault.indicator = true ∧
    afterFault.frames = [.checkSilence 256, .drawWave] := by
  simp [-one_div, afterFault, faultedSession, loaded, initial, run, step, StartRecord,
    startRecording, startAnimation, detectSilence, checkSilence, silentTest_loaded, truthy,
    emit, drawWave, frameRuns, timerFires, stopRecording, stopGuard, recorderEnds]

theorem idle_loaded : Idle loaded := by
  simp [Idle, loaded, initial]

/-- C10.  A `drawWave` tick run while `mIsRecording` is false changes nothing (no frame
scheduled, nothing drawn) and a tick run while it is true schedules exactly one next
tick; in a session started from idle exactly one `drawWave` frame is scheduled
whenever `mIsRecording` is true, and after a `stopRecording` whose guard passes none
remains once the next `drawWave` tick has run.  Evaluated where the platform has
stopped the recorder by itself: `stopRecording`, invoked by the silence timer, does
nothing, `mIsRecording` stays true, and after the `drawWave` tick that follows, and
after any later tasks, one `drawWave` frame is still scheduled. -/
theorem drawWave_loop_survives_stop_of_inactive_recorder (es : List Event)
    (hes : ∀ e ∈ es, e.isStart = false) :
    (∀ (src : List Nat) (s : State), s.mIsRecording = false → drawWave src s = s) ∧
    (∀ (src : List Nat) (s : State), s.mIsRecording = true →
      (drawWave src s).frames = s.frames ++ [.drawWave] ∧
      (effectsSince s (drawWave src s)).count (.requestFrame .drawWave) = 1) ∧
    (∀ (s : State) (silenceSrc waveSrc : List Nat) (fs : List Event),
      Idle s → (∀ e ∈ fs, e.isStart = false) →
      (StartRecord (.ok ()) silenceSrc waveSrc s).2.mIsRecording = true ∧
      ((run (StartRecord (.ok ()) silenceSrc waveSrc s).2 fs).mIsRecording = true →
        (run (StartRecord (.ok ()) silenceSrc waveSrc s).2 fs).frames.count .drawWave = 1) ∧
      (stopGuard (run (StartRecord (.ok ()) silenceSrc waveSrc s).2 fs) = true →
        (stopRecording (run (StartRecord (.ok ()) silenceSrc waveSrc s).2 fs)).mIsRecording
          = false ∧
        ∀ (gs : List Event) (src : List Nat), (∀ e ∈ gs, e.isStart = false) →
          (frameRuns .drawWave src
            (run (stopRecording (run (StartRecord (.ok ()) silenceSrc waveSrc s).2 fs))
              gs)).frames.count .drawWave = 0)) ∧
    afterFault.mIsRecording = true ∧
    afterFault.mMediaRecorder = some .inactive ∧
    afterFault.liveStreams = [1] ∧
    afterFault.frames.count .drawWave = 1 ∧
    stopRecording (run afterFault es) = run afterFault es ∧
    (run afterFault es).mIsRecording = true ∧
    (run afterFault es).frames.count .drawWave = 1 ∧
    (∀ src, (frameRuns .drawWave src (stopRecording (run afterFault es))).frames.count
      .drawWave = 1) := by
  have hgeneral : ∀ (s : State) (a b : List Nat) (fs : List Event), Idle s →
      (∀ e ∈ fs, e.isStart = false) → WaveInv (run (StartRecord (.ok ()) a b s).2 fs) :=
    fun s a b fs hidle hfs => WaveInv_run fs _ hfs (WaveInv_start a b s hidle)
  obtain ⟨h1, h2, -, h4, -, -, h7⟩ := afterFault_fields
  have heq : afterFault = run (StartRecord (.ok ()) [] [] loaded).2
      [.recorderEnds false, .advance 1500, .timeout 1, .frame .drawWave []] :=
    run_cons loaded (.startRecord (.ok ()) [] []) _
  have hwave0 : WaveInv afterFault := by
    rw [heq]
    exact hgeneral loaded [] [] _ idle_loaded (by simp [Event.isStart])
  have hstuck := Stuck_run es afterFault hes ⟨h1, h2⟩
  have hwave := WaveInv_run es afterFault hes hwave0
  have hnoop := stopRecording_of_not_guard _ (stopGuard_of_stuck _ hstuck)
  refine ⟨drawWave_of_not_recording, fun src s hrec => ?_, fun s a b fs hidle hfs => ?_,
    h1, h2, h4, by simp [h7], hnoop, hstuck.1, hwave.1 hstuck.1, fun src => ?_⟩
  · rw [drawWave_of_recording src s hrec]
    refine ⟨rfl, ?_⟩
    rw [effectsSince_append s _
      ([.requestFrame .drawWave] ++ (wavePath s.canvasWidth s.canvasHeight s.mBufferLength
        (readBytes s.mBufferLength src)).map Effect.canvas) (by simp)]
    have hz : List.count (Effect.requestFrame .drawWave)
        ((wavePath s.canvasWidth s.canvasHeight s.mBufferLength
          (readBytes s.mBufferLength src)).map Effect.canvas) = 0 :=
      List.count_eq_zero.mpr (by simp)
    rw [List.count_append, hz]
    simp
  · have hrun := hgeneral s a b fs hidle hfs
    refine ⟨?_, hrun.1, fun hg => ?_⟩
    · rw [StartRecord_ok, (drawWave_fields _ _).1, (checkSilence_fields _ _ _).1]
      rfl
    · have hstop := (stopRecording_mIsRecording _).1 hg
      exact ⟨hstop, fun gs src hgs => drawFrame_after_stop src _
        (WaveInv_run gs _ hgs (WaveInv_stopRecording _ hrun))
        (run_not_recording gs _ hgs hstop)⟩
  · rw [hnoop]
    have hmem : Callback.drawWave ∈ (run afterFault es).frames :=
      List.count_pos_iff.mp (by rw [hwave.1 hstuck.1]; exact Nat.one_pos)
    have hinv := WaveInv_drawFrame src (run afterFault es) hwave
    simp only [frameRuns, hmem, if_true]
    exact hinv.1 (by rw [(drawWave_fields _ _).1]; exact hstuck.1)

/-- C10, evaluated where the platform has stopped the recorder: the timer fires again,
`stopRecording` is called directly and two more `drawWave` frames run. -/
theorem drawWave_loop_survives_stop_of_inactive_recorder_witness :
    (run afterFault
      [.timeout 1, .stop, .frame .drawWave [], .advance 1000, .frame .drawWave []]).mIsRecording
        = true ∧
    (run afterFault
      [.timeout 1, .stop, .frame .drawWave [], .advance 1000,
       .frame .drawWave []]).frames.count .drawWave = 1 :=
  ⟨(drawWave_loop_survives_stop_of_inactive_recorder _
      (by simp [Event.isStart])).2.2.2.2.2.2.2.2.1,
   (drawWave_loop_survives_stop_of_inactive_recorder _
      (by simp [Event.isStart])).2.2.2.2.2.2.2.2.2.1⟩

/-! ## Sessions after the first -/

theorem checkSilence_frames_of_pos (n : Nat) (src : List Nat) (s : State) (hn : 0 < n) :
    (checkSilence n src s).frames = s.frames ++ [.checkSilence n] := by
  have hne : silenceTest s.mSilenceThreshold (readBytes n src) ≠ none := by
    rw [silenceTest_eq _ _ (readBytes_ne_nil n src hn)]; simp
  rcases checkSilence_cases n src s with h | ⟨h, hh⟩ | ⟨h, hh⟩ | h
  · exact absurd h hne
  · rw [checkSilence_arm _ _ _ h hh]
  · rw [checkSilence_keep _ _ _ h hh]
  · rw [checkSilence_clear _ _ _ h]

theorem checkSilence_frames_mem (n : Nat) (src : List Nat) (s : State) (cb : Callback)
    (h : cb ∈ s.frames) : cb ∈ (checkSilence n src s).frames := by
  rcases (checkSilence_fields n src s).2.2.2.2.2.2.2.2 with hf | hf <;> rw [hf]
  · exact h
  · exact List.mem_append_left _ h

theorem drawWave_frames_mem (src : List Nat) (s : State) (cb : Callback)
    (h : cb ∈ s.frames) : cb ∈ (drawWave src s).frames := by
  rw [drawWave_frames]
  split
  · exact List.mem_append_left _ h
  · exact h

/-- A scheduled `checkSilence` closure with a non-empty buffer stays scheduled whatever
task runs next. -/
theorem step_keeps_detector (s : State) (e : Event) (n : Nat) (hn : 0 < n)
    (h : Callback.checkSilence n ∈ s.frames) : Callback.checkSilence n ∈ (step s e).frames := by
  cases e with
  | startRecord acquire silenceSrc waveSrc =>
    cases acquire with
    | error err => exact h
    | ok u =>
      cases u
      simp only [step, StartRecord_ok]
      exact drawWave_frames_mem _ _ _ (checkSilence_frames_mem _ _ _ _ h)
  | frame cb src =>
    simp only [step, frameRuns]
    split
    · cases cb with
      | checkSilence m =>
        by_cases hmn : m = n
        · subst hmn
          rw [checkSilence_frames_of_pos _ _ _ hn]
          simp
        · apply checkSilence_frames_mem
          exact (List.mem_erase_of_ne (by simpa using Ne.symm hmn)).mpr h
      | drawWave =>
        apply drawWave_frames_mem
        exact (List.mem_erase_of_ne (by simp)).mpr h
    · exact h
  | timeout id =>
    simp only [step]
    rcases timerFires_eq id s with h' | ⟨-, h'⟩ <;> rw [h']
    · exact h
    · rw [(stopRecording_fields _).1]; exact h
  | stop => rw [step, (stopRecording_fields _).1]; exact h
  | recorderStopped =>
    simp only [step]
    rcases stopListener_eq s with h' | h' <;> rw [h'] <;> exact h
  | hostAnswered =>
    simp only [step]
    rcases stopListenerResume_eq s with h' | h' <;> rw [h'] <;> exact h
  | recorderEnds tracksEnded =>
    simp only [step]
    rcases recorderEnds_eq tracksEnded s with h' | ⟨l, h'⟩ <;> rw [h'] <;> exact h
  | advance dt => exact h

theorem run_keeps_detector (es : List Event) (s : State) (n : Nat) (hn : 0 < n)
    (h : Callback.checkSilence n ∈ s.frames) : Callback.checkSilence n ∈ (run s es).frames := by
  induction es generalizing s with
  | nil => exact h
  | cons e es ih => exact ih (step s e) (step_keeps_detector s e n hn h)

theorem StaleHandle_step (s : State) (e : Event)
    (he : e.ambientSilence s.mSilenceThreshold = true) (hs : StaleHandle s) :
    StaleHandle (step s e) := by
  obtain ⟨hrec, hm, hh, ht⟩ := hs
  cases e with
  | startRecord acquire silenceSrc waveSrc => simp [Event.ambientSilence] at he
  | stop => simp [Event.ambientSilence] at he
  | recorderEnds tracksEnded => simp [Event.ambientSilence] at he
  | frame cb src =>
    simp only [step, frameRuns]
    split
    · cases cb with
      | checkSilence n =>
        have hq : silenceTest s.mSilenceThreshold (readBytes n src) ≠ some false := by
          simpa [Event.ambientSilence, Event.loudTick] using he
        show StaleHandle
          (checkSilence n src { s with frames := s.frames.erase (.checkSilence n) })
        rcases checkSilence_cases n src { s with frames := s.frames.erase (.checkSilence n) }
          with h | ⟨h, hh'⟩ | ⟨h, hh'⟩ | h
        · rw [checkSilence_of_none _ _ _ h]; exact ⟨hrec, hm, hh, ht⟩
        · rw [show truthy s.mSilenceTimeout = false from hh'] at hh; cases hh
        · rw [checkSilence_keep _ _ _ h hh']; exact ⟨hrec, hm, hh, ht⟩
        · exact absurd h hq
      | drawWave =>
        obtain ⟨h1, h2, -, -, -, -, -, h3, h4, -⟩ :=
          drawWave_fields src { s with frames := s.frames.erase .drawWave }
        exact ⟨h1.trans hrec, h2.trans hm, by rw [h3]; exact hh, h4.trans ht⟩
    · exact ⟨hrec, hm, hh, ht⟩
  | timeout id =>
    simp only [step]
    rcases timerFires_eq id s with h | ⟨⟨t, hmem, -⟩, -⟩
    · rw [h]; exact ⟨hrec, hm, hh, ht⟩
    · rw [ht] at hmem; cases hmem
  | recorderStopped =>
    simp only [step]
    rcases stopListener_eq s with h | h <;> rw [h] <;> exact ⟨hrec, hm, hh, ht⟩
  | hostAnswered =>
    simp only [step]
    rcases stopListenerResume_eq s with h | h <;> rw [h] <;> exact ⟨hrec, hm, hh, ht⟩
  | advance dt => exact ⟨hrec, hm, hh, ht⟩

theorem StaleHandle_run (es : List Event) (s : State)
    (hes : ∀ e ∈ es, e.ambientSilence s.mSilenceThreshold = true) (hs : StaleHandle s) :
    StaleHandle (run s es) := by
  induction es generalizing s with
  | nil => exact hs
  | cons e es ih =>
    refine ih (step s e) (fun f hf => ?_) (StaleHandle_step s e (hes e (by simp)) hs)
    rw [(step_config s e).1]
    exact hes f (by simp [hf])

set_option maxRecDepth 8000 in
/-- The module after a first session over silent input: the recording has stopped,
the tracks are released, no timer is pending, the stale timer id is still in the
handle, and the `checkSilence` closure is still scheduled. -/
theorem afterFirstSession_fields :
    afterFirstSession.mIsRecording = false ∧
    afterFirstSession.mMediaRecorder = some .inactive ∧
    afterFirstSession.mSilenceTimeout = some 1 ∧
    afterFirstSession.timers = [] ∧
    afterFirstSession.liveStreams = [] ∧
    afterFirstSession.stopEvents = 0 ∧
    afterFirstSession.awaitingHost = 0 ∧
    afterFirstSession.indicator = false ∧
    afterFirstSession.frames = [.checkSilence 256] ∧
    afterFirstSession.mSilenceThreshold = 1 / 10 ∧
    afterFirstSession.now = 1500 ∧
    afterFirstSession.mSilenceDuration = 1500 ∧
    afterFirstSession.nextTimer = 1 := by
  simp [-one_div, afterFirstSession, silentSession, loaded, initial, run, step, StartRecord,
    startRecording, startAnimation, detectSilence, checkSilence, silentTest_loaded, truthy,
    emit, drawWave, frameRuns, timerFires, stopRecording, stopGuard, stopAnimation,
    stopListener, stopListenerResume, clearTimeout]

theorem secondSession_stale :
    StaleHandle secondSession ∧ secondSession.mSilenceThreshold = 1 / 10 ∧
    secondSession.mSilenceTimeout = some 1 := by
  obtain ⟨-, -, hh, ht, -, -, -, -, -, hthr, -⟩ := afterFirstSession_fields
  have hsil : silenceTest (sessionSetup afterFirstSession).mSilenceThreshold
      (readBytes 256 []) = some true := by
    rw [show (sessionSetup afterFirstSession).mSilenceThreshold = 1 / 10 from hthr]
    exact silentTest_loaded
  have htruthy : truthy (sessionSetup afterFirstSession).mSilenceTimeout = true := by
    rw [show (sessionSetup afterFirstSession).mSilenceTimeout = some 1 from hh]; rfl
  have heq : secondSession = drawWave []
      (checkSilence 256 [] (sessionSetup afterFirstSession)) := by
    simp only [secondSession, step, StartRecord_ok]
  rw [heq, checkSilence_keep _ _ _ hsil htruthy]
  obtain ⟨h1, h2, -, -, -, h3, -, h4, h5, -⟩ := drawWave_fields []
    { sessionSetup afterFirstSession with
      frames := (sessionSetup afterFirstSession).frames ++ [.checkSilence 256],
      log := (sessionSetup afterFirstSession).log ++ [.requestFrame (.checkSilence 256)] }
  refine ⟨⟨h1, h2, ?_, h5.trans ht⟩, h3.trans hthr, h4.trans hh⟩
  rw [h4]; exact htruthy

/-- C2, evaluated on a second session.  After a first session that silence has
stopped, a second `StartRecord` over silent input arms no timer, and however long the
silence lasts (any run of silent `checkSilence` ticks, `drawWave` frames, timer
callbacks, recorder events and passing time) the session stays recording with no timer
pending: `stopRecording` is never invoked. -/
theorem second_session_never_stops_on_silence (es : List Event)
    (hes : ∀ e ∈ es, e.ambientSilence (1 / 10) = true) :
    afterFirstSession.mIsRecording = false ∧
    secondSession.mIsRecording = true ∧
    secondSession.mSilenceTimeout = some 1 ∧
    secondSession.timers = [] ∧
    (run secondSession es).mIsRecording = true ∧
    (run secondSession es).mMediaRecorder = some .recording ∧
    (run secondSession es).timers = [] := by
  obtain ⟨hstale, hthr, hh⟩ := secondSession_stale
  have hrun := StaleHandle_run es secondSession (fun e he => by rw [hthr]; exact hes e he) hstale
  exact ⟨afterFirstSession_fields.1, hstale.1, hh, hstale.2.2.2, hrun.1, hrun.2.1, hrun.2.2.2⟩

/-- C2, evaluated on a second session that stays silent for 100 seconds. -/
theorem second_session_never_stops_on_silence_witness :
    (run secondSession
      [.frame (.checkSilence 256) [], .advance 1500, .timeout 1, .timeout 2,
       .frame (.checkSilence 256) [], .frame .drawWave [], .advance 100000,
       .timeout 1, .timeout 2]).mIsRecording = true ∧
    (run secondSession
      [.frame (.checkSilence 256) [], .advance 1500, .timeout 1, .timeout 2,
       .frame (.checkSilence 256) [], .frame .drawWave [], .advance 100000,
       .timeout 1, .timeout 2]).timers = [] :=
  ⟨(second_session_never_stops_on_silence _
      (by simp [-one_div, Event.ambientSilence, Event.loudTick, silentTest_loaded])).2.2.2.2.1,
   (second_session_never_stops_on_silence _
      (by simp [-one_div, Event.ambientSilence, Event.loudTick, silentTest_loaded])).2.2.2.2.2.2⟩

/-- C4, evaluated after a complete session.  Once `stopRecording` and the recorder's
`stop` listener have run, recording is off, the tracks are released and no timer is
pending, but the `checkSilence` closure is still scheduled and stays scheduled
whatever tasks run afterwards; a loud tick followed by a silent one then arms a new
silence timer although no session is recording. -/
theorem stopped_session_keeps_detector_loop (es : List Event) :
    afterFirstSession.mIsRecording = false ∧
    afterFirstSession.liveStreams = [] ∧
    afterFirstSession.timers = [] ∧
    afterFirstSession.stopEvents = 0 ∧
    afterFirstSession.awaitingHost = 0 ∧
    afterFirstSession.frames = [.checkSilence 256] ∧
    Callback.checkSilence 256 ∈ (run afterFirstSession es).frames ∧
    (run afterFirstSession
      [.frame (.checkSilence 256) loudInput, .frame (.checkSilence 256) []]).timers
        = [(2, 3000)] := by
  obtain ⟨h1, h2, h3, h4, h5, h6, h7, h8, h9, h10, h11, h12, h13⟩ := afterFirstSession_fields
  refine ⟨h1, h5, h4, h6, h7, h9, run_keeps_detector es _ 256 (by norm_num) (by simp [h9]), ?_⟩
  have hloud : silenceTest afterFirstSession.mSilenceThreshold (readBytes 256 loudInput)
      = some false := by rw [h10]; exact loudTest_loaded
  have hsil : silenceTest afterFirstSession.mSilenceThreshold (readBytes 256 [])
      = some true := by rw [h10]; exact silentTest_loaded
  simp [run, step, frameRuns, h9, checkSilence, hloud, hsil, truthy, emit, clearTimeout,
    h3, h4, h11, h12, h13]

/-- The concrete recording state `midSession` is the state right after a first
successful `StartRecord` on a freshly loaded module, with the effect log emptied. -/
theorem midSession_eq_firstTick : { firstTick with log := [] } = midSession := by
  simp [-one_div, firstTick, loaded, initial, step, StartRecord, startRecording,
    startAnimation, detectSilence, checkSilence, silentTest_loaded, truthy, emit, drawWave,
    midSession]

end AudioRecorder
